import Mathlib

/-!
# Verification of the simulation core of `game_core.cpp`

Shallow embedding of the per-frame update engine (collision primitive, target
relocation, ball physics, player controller, click handling) followed by the
properties proved about it.

Modelling conventions

* `int` globals are mathematical integers (`Int`); signed overflow is undefined
  behaviour in C++ and is not modelled.
* `double` globals are rationals (`ℚ`); infinities and NaN are not modelled.  `(int)d`
  truncates toward zero.  `update_state` computes with exact arithmetic; `update_stateD` is
  the same tick with the result of every double operation rounded to IEEE 754 binary64
  (`roundToDouble`), used where a property depends on rounding accumulated over ticks.
* `(Sint16)e` wraps into `[-32768, 32767]`; `Uint16` widths are naturals.
* `SDL_GetKeyState` and `rand()` are inputs of a tick; `SDL_PollEvent` delivers one
  `SDL_Event` at a time.
-/

namespace GameCore

/-! ## Configuration constants -/

def SCREEN_WIDTH : Int := 640
def SCREEN_HEIGHT : Int := 480

def PLAYER_WIDTH : Int := 64
def PLAYER_HEIGHT : Int := 64
def TARGET_WIDTH : Int := 100
def TARGET_HEIGHT : Int := 100
def PLAYER_VELOCITY : Int := 4
def PLAYER_START_X : Int := 50
def PLAYER_START_Y : Int := 150

def BALL_WIDTH : Int := 24
def BALL_HEIGHT : Int := 25
def BOUNCE_FACTOR : ℚ := 8 / 10

def PLATFORM_WIDTH : Int := 406
def PLATFORM_HEIGHT : Int := 317
def PLATFORM_X : Int := Int.tdiv (SCREEN_WIDTH - PLATFORM_WIDTH) 2
def PLATFORM_Y : Int := SCREEN_HEIGHT - PLATFORM_HEIGHT - 50

def JUMP_VELOCITY : ℚ := -12
def PLATFORM_GRAVITY : ℚ := 8 / 10
def FREE_ROAM_GRAVITY : ℚ := 5 / 10

def BUTTON_MARGIN : Int := 10
def TOGGLE_BUTTON_WIDTH : Int := 96
def TOGGLE_BUTTON_HEIGHT : Int := 53
def TOGGLE_BUTTON_X : Int := SCREEN_WIDTH - TOGGLE_BUTTON_WIDTH - BUTTON_MARGIN
def TOGGLE_BUTTON_Y : Int := BUTTON_MARGIN
def RETRY_BUTTON_WIDTH : Int := 87
def RETRY_BUTTON_HEIGHT : Int := 45
def RETRY_BUTTON_X : Int := TOGGLE_BUTTON_X - RETRY_BUTTON_WIDTH - BUTTON_MARGIN
def RETRY_BUTTON_Y : Int := TOGGLE_BUTTON_Y

/-! ## Machine conversions -/

/-- Conversion of an integer to `Sint16` (two's complement wrap-around). -/
def toSint16 (n : Int) : Int := (n + 32768) % 65536 - 32768

/-- Conversion of an integer to `Uint16`. -/
def toUint16 (n : Int) : Nat := (n % 65536).toNat

/-- The C++ cast `(int)d` of a double: truncation toward zero. -/
def truncToInt (d : ℚ) : Int := if 0 ≤ d then ⌊d⌋ else ⌈d⌉

/-- The rectangle type of SDL 1.2: `Sint16 x, y; Uint16 w, h`. -/
structure SDL_Rect where
  x : Int
  y : Int
  w : Nat
  h : Nat
deriving DecidableEq, Repr

/-! ## Collision primitive -/

/-- AABB test of `check_collision`, with the four early returns of the source. -/
def check_collision (A B : SDL_Rect) : Bool :=
  if A.y + A.h ≤ B.y then false
  else if A.y ≥ B.y + B.h then false
  else if A.x + A.w ≤ B.x then false
  else if A.x ≥ B.x + B.w then false
  else true

/-- The half-open integer intervals `[a, a + m)` and `[b, b + n)` have a common point. -/
def intervalsMeet (a : Int) (m : Nat) (b : Int) (n : Nat) : Prop :=
  ∃ p : Int, a ≤ p ∧ p < a + m ∧ b ≤ p ∧ p < b + n

/-! ## World state -/

/-- The anonymous enum `PLAYER_FACING_RIGHT, PLAYER_FACING_LEFT`. -/
inductive PlayerFacing where
  | PLAYER_FACING_RIGHT
  | PLAYER_FACING_LEFT
deriving DecidableEq, Repr

/-- The two fields of an `SDL_Surface` that the core reads. -/
structure SDL_Surface where
  w : Int
  h : Int
deriving DecidableEq, Repr

/-- The global variables of the program that the simulation core reads or writes. -/
structure GameState where
  gCursorSurface : Option SDL_Surface
  gScore : Int
  gFollowerX : Int
  gFollowerY : Int
  gIsMouseDown : Bool
  gPlayerX : Int
  gPlayerY : Int
  gTargetColliding : Bool
  gPlayerDirection : PlayerFacing
  gTargetX : Int
  gTargetY : Int
  gBallX : ℚ
  gBallY : ℚ
  gBallVelX : ℚ
  gBallVelY : ℚ
  gGravityOn : Bool
  gPlatformLoss : Bool
  gPlayerVelY : ℚ
  gIsOnGround : Bool
  gBallGrabbed : Bool
deriving DecidableEq

/-- Initial values of the globals; the cursor surface is whatever `load_media` produced. -/
def initialState (cursor : Option SDL_Surface) : GameState where
  gCursorSurface := cursor
  gScore := 0
  gFollowerX := Int.tdiv SCREEN_WIDTH 2
  gFollowerY := Int.tdiv SCREEN_HEIGHT 2
  gIsMouseDown := false
  gPlayerX := PLAYER_START_X
  gPlayerY := PLAYER_START_Y
  gTargetColliding := false
  gPlayerDirection := PlayerFacing.PLAYER_FACING_RIGHT
  gTargetX := SCREEN_WIDTH - 150
  gTargetY := SCREEN_HEIGHT - 150
  gBallX := 300
  gBallY := 50
  gBallVelX := 3
  gBallVelY := 0
  gGravityOn := false
  gPlatformLoss := false
  gPlayerVelY := 0
  gIsOnGround := false
  gBallGrabbed := false

/-- Snapshot of `SDL_GetKeyState` for the four arrow keys, and the two values the
next two calls of `rand()` return. -/
structure TickInput where
  keyUp : Bool
  keyDown : Bool
  keyLeft : Bool
  keyRight : Bool
  rand1 : Nat
  rand2 : Nat
deriving DecidableEq, Repr

/-- Brace initialisation `{(Sint16)x, (Sint16)y, (Uint16)w, (Uint16)h}`. -/
def mkRect (x y w h : Int) : SDL_Rect :=
  ⟨toSint16 x, toSint16 y, toUint16 w, toUint16 h⟩

def playerBoxOf (s : GameState) : SDL_Rect :=
  mkRect s.gPlayerX s.gPlayerY PLAYER_WIDTH PLAYER_HEIGHT

def ballBoxOf (s : GameState) : SDL_Rect :=
  mkRect (truncToInt s.gBallX) (truncToInt s.gBallY) BALL_WIDTH BALL_HEIGHT

def targetBoxOf (s : GameState) : SDL_Rect :=
  mkRect s.gTargetX s.gTargetY TARGET_WIDTH TARGET_HEIGHT

def platformBox : SDL_Rect :=
  mkRect PLATFORM_X PLATFORM_Y PLATFORM_WIDTH PLATFORM_HEIGHT

/-! ## Target relocation -/

/-- Body of `move_target_randomly`; `r1`, `r2` are the two results of `rand()`. -/
def move_target_randomly (r1 r2 : Nat) (s : GameState) : GameState :=
  let maxX := SCREEN_WIDTH - TARGET_WIDTH
  let maxY := SCREEN_HEIGHT - TARGET_HEIGHT
  { s with gTargetX := Int.tmod r1 maxX, gTargetY := Int.tmod r2 maxY }

/-! ## Ball physics -/

/-- `std::copysign(x, (double)d)` for an `int` d (never a negative zero). -/
def copysign (x : ℚ) (d : Int) : ℚ := if d < 0 then -|x| else |x|

/-- Grabbed ball: follow the cursor when the cursor surface exists. -/
def ballFollowCursor (s : GameState) : GameState :=
  match s.gCursorSurface with
  | some c =>
    { s with
      gBallX := ((s.gFollowerX + Int.tdiv c.w 2 - Int.tdiv BALL_WIDTH 2 : Int) : ℚ)
      gBallY := ((s.gFollowerY + Int.tdiv c.h 2 - Int.tdiv BALL_HEIGHT 2 : Int) : ℚ) }
  | none => s

/-- Grabbed ball: the four clamping statements for x. -/
def ballClampX (s : GameState) : GameState :=
  let s1 := if s.gBallX < 0 then { s with gBallX := 0 } else s
  if s1.gBallX + BALL_WIDTH > SCREEN_WIDTH then
    { s1 with gBallX := ((SCREEN_WIDTH - BALL_WIDTH : Int) : ℚ) }
  else s1

/-- Grabbed ball: the clamping statements for y. -/
def ballClampY (s : GameState) : GameState :=
  let s1 := if s.gBallY < 0 then { s with gBallY := 0 } else s
  if s1.gBallY + BALL_HEIGHT > SCREEN_HEIGHT then
    { s1 with gBallY := ((SCREEN_HEIGHT - BALL_HEIGHT : Int) : ℚ) }
  else s1

/-- Steps 1 and 2: gravity on the vertical velocity, then Euler integration. -/
def ballIntegrate (s : GameState) : GameState :=
  let velY := s.gBallVelY + FREE_ROAM_GRAVITY
  { s with gBallVelY := velY, gBallX := s.gBallX + s.gBallVelX, gBallY := s.gBallY + velY }

/-- Step 3, horizontal bounds. -/
def ballWallsX (s : GameState) : GameState :=
  if s.gBallX < 0 then
    { s with gBallX := 0, gBallVelX := s.gBallVelX * -BOUNCE_FACTOR }
  else if s.gBallX + BALL_WIDTH > SCREEN_WIDTH then
    { s with gBallX := ((SCREEN_WIDTH - BALL_WIDTH : Int) : ℚ),
             gBallVelX := s.gBallVelX * -BOUNCE_FACTOR }
  else s

/-- Step 3, vertical bounds, with the rest condition on the floor. -/
def ballWallsY (s : GameState) : GameState :=
  if s.gBallY < 0 then
    { s with gBallY := 0, gBallVelY := s.gBallVelY * -BOUNCE_FACTOR }
  else if s.gBallY + BALL_HEIGHT > SCREEN_HEIGHT then
    let velY := s.gBallVelY * -BOUNCE_FACTOR
    { s with gBallY := ((SCREEN_HEIGHT - BALL_HEIGHT : Int) : ℚ),
             gBallVelY := if |velY| < FREE_ROAM_GRAVITY then 0 else velY }
  else s

/-- Step 4: dominant-axis response to an overlap with the player box. -/
def ballPlayerCollision (s : GameState) : GameState :=
  if !s.gPlatformLoss then
    if check_collision (playerBoxOf s) (ballBoxOf s) then
      let playerCenterX := s.gPlayerX + Int.tdiv PLAYER_WIDTH 2
      let playerCenterY := s.gPlayerY + Int.tdiv PLAYER_HEIGHT 2
      let ballCenterX := truncToInt s.gBallX + Int.tdiv BALL_WIDTH 2
      let ballCenterY := truncToInt s.gBallY + Int.tdiv BALL_HEIGHT 2
      let dx := ballCenterX - playerCenterX
      let dy := ballCenterY - playerCenterY
      if |dx| > |dy| then
        { s with
          gBallVelX := copysign (s.gBallVelX * -BOUNCE_FACTOR) dx
          gBallX := if dx > 0 then ((s.gPlayerX + PLAYER_WIDTH : Int) : ℚ)
                    else ((s.gPlayerX - BALL_WIDTH : Int) : ℚ) }
      else
        { s with
          gBallVelY := copysign (s.gBallVelY * -BOUNCE_FACTOR) dy
          gBallY := if dy > 0 then ((s.gPlayerY + PLAYER_HEIGHT : Int) : ℚ)
                    else ((s.gPlayerY - BALL_HEIGHT : Int) : ℚ) }
    else s
  else s

/-- Body of `update_ball_physics`. -/
def update_ball_physics (s : GameState) : GameState :=
  if s.gBallGrabbed then
    ballClampY (ballClampX (ballFollowCursor s))
  else
    ballPlayerCollision (ballWallsY (ballWallsX (ballIntegrate s)))

/-! ## Player controller and frame update -/

/-- Branch A of `update_state`: free-roam movement and reset of the platformer variables. -/
def playerFreeRoam (i : TickInput) (s : GameState) : GameState :=
  let isHorizontal := i.keyLeft || i.keyRight
  let isVertical := i.keyUp || i.keyDown
  let speedScale : ℚ := if isHorizontal && isVertical then 707 / 1000 else 1
  let moveY0 : Int := 0
  let moveY1 := if i.keyUp then moveY0 - PLAYER_VELOCITY else moveY0
  let moveY := if i.keyDown then moveY1 + PLAYER_VELOCITY else moveY1
  let moveX0 : Int := 0
  let moveX1 := if i.keyLeft then moveX0 - PLAYER_VELOCITY else moveX0
  let dir1 := if i.keyLeft then PlayerFacing.PLAYER_FACING_LEFT else s.gPlayerDirection
  let moveX := if i.keyRight then moveX1 + PLAYER_VELOCITY else moveX1
  let dir := if i.keyRight then PlayerFacing.PLAYER_FACING_RIGHT else dir1
  { s with
    gPlayerDirection := dir
    gPlayerX := s.gPlayerX + truncToInt ((moveX : ℚ) * speedScale)
    gPlayerY := s.gPlayerY + truncToInt ((moveY : ℚ) * speedScale)
    gIsOnGround := false
    gPlayerVelY := 0
    gPlatformLoss := false }

/-- Branch B, step 1: horizontal movement. -/
def platformerHorizontal (i : TickInput) (s : GameState) : GameState :=
  let s1 := if i.keyLeft then
      { s with gPlayerX := s.gPlayerX - PLAYER_VELOCITY,
               gPlayerDirection := PlayerFacing.PLAYER_FACING_LEFT }
    else s
  if i.keyRight then
    { s1 with gPlayerX := s1.gPlayerX + PLAYER_VELOCITY,
              gPlayerDirection := PlayerFacing.PLAYER_FACING_RIGHT }
  else s1

/-- Branch B, step 2: jumping, only from the ground. -/
def platformerJump (i : TickInput) (s : GameState) : GameState :=
  if i.keyUp && s.gIsOnGround then
    { s with gPlayerVelY := JUMP_VELOCITY, gIsOnGround := false }
  else s

/-- Branch B, step 3: gravity and vertical movement. -/
def platformerGravity (s : GameState) : GameState :=
  let velY := s.gPlayerVelY + PLATFORM_GRAVITY
  { s with gPlayerVelY := velY, gPlayerY := s.gPlayerY + truncToInt velY }

/-- Branch B, check 4a: player against the platform. -/
def platformerPlatform (s : GameState) : GameState :=
  if check_collision (playerBoxOf s) platformBox &&
      decide (s.gPlayerY + PLAYER_HEIGHT < platformBox.y + PLAYER_VELOCITY) then
    if s.gPlayerVelY ≥ 0 then
      { s with gPlayerY := platformBox.y - PLAYER_HEIGHT, gPlayerVelY := 0, gIsOnGround := true }
    else s
  else if s.gIsOnGround then
    { s with gIsOnGround := false }
  else s

/-- Branch B, check 4b: player against the bottom of the screen (loss condition). -/
def platformerFloor (s : GameState) : GameState :=
  if s.gPlayerY + PLAYER_HEIGHT ≥ SCREEN_HEIGHT then
    { s with gPlayerY := SCREEN_HEIGHT - PLAYER_HEIGHT, gPlayerVelY := 0,
             gIsOnGround := true, gPlatformLoss := true }
  else s

/-- Branch B up to and including check 4a (movement is locked in the loss state). -/
def platformerBeforeFloor (i : TickInput) (s : GameState) : GameState :=
  platformerPlatform (platformerGravity (platformerJump i (platformerHorizontal i s)))

/-- Branch B of `update_state`. -/
def playerPlatformer (i : TickInput) (s : GameState) : GameState :=
  if !s.gPlatformLoss then platformerFloor (platformerBeforeFloor i s) else s

/-- Screen boundary check of the player. -/
def playerScreenClamp (s : GameState) : GameState :=
  let s1 :=
    if s.gPlayerX < 0 then { s with gPlayerX := 0 }
    else if s.gPlayerX + PLAYER_WIDTH > SCREEN_WIDTH then
      { s with gPlayerX := SCREEN_WIDTH - PLAYER_WIDTH }
    else s
  if !s1.gGravityOn then
    if s1.gPlayerY < 0 then { s1 with gPlayerY := 0 }
    else if s1.gPlayerY + PLAYER_HEIGHT > SCREEN_HEIGHT then
      { s1 with gPlayerY := SCREEN_HEIGHT - PLAYER_HEIGHT }
    else s1
  else s1

/-- Player part of `update_state`: mode branch followed by the screen boundary check. -/
def updatePlayer (i : TickInput) (s : GameState) : GameState :=
  playerScreenClamp (if !s.gGravityOn then playerFreeRoam i s else playerPlatformer i s)

/-- Target collision and scoring check at the end of `update_state`. -/
def targetScoring (i : TickInput) (s : GameState) : GameState :=
  let wasColliding := s.gTargetColliding
  let s1 := { s with gTargetColliding := check_collision (playerBoxOf s) (targetBoxOf s) }
  if s1.gTargetColliding && !wasColliding then
    move_target_randomly i.rand1 i.rand2 { s1 with gScore := s1.gScore + 1 }
  else s1

/-- One call of `update_state`. -/
def update_state (i : TickInput) (s : GameState) : GameState :=
  targetScoring i (update_ball_physics (updatePlayer i s))

/-! ## Event handling -/

def SDL_BUTTON_LEFT : Nat := 1
def SDLK_ESCAPE : Nat := 27

/-- The events `handle_events` distinguishes; coordinates are `Uint16`. -/
inductive SDL_Event where
  | SDL_QUIT
  | SDL_KEYDOWN (sym : Nat)
  | SDL_MOUSEBUTTONDOWN (button : Nat) (x y : Nat)
  | SDL_MOUSEBUTTONUP (button : Nat) (x y : Nat)
  | SDL_MOUSEMOTION (x y : Nat)
  | other
deriving DecidableEq, Repr

/-- Point-in-rectangle test used for the two buttons. -/
def clickInside (x y : Nat) (r : SDL_Rect) : Bool :=
  decide ((x : Int) ≥ r.x) && decide ((x : Int) < r.x + r.w) &&
  decide ((y : Int) ≥ r.y) && decide ((y : Int) < r.y + r.h)

def toggleRect : SDL_Rect :=
  mkRect TOGGLE_BUTTON_X TOGGLE_BUTTON_Y TOGGLE_BUTTON_WIDTH TOGGLE_BUTTON_HEIGHT

def retryRect : SDL_Rect :=
  mkRect RETRY_BUTTON_X RETRY_BUTTON_Y RETRY_BUTTON_WIDTH RETRY_BUTTON_HEIGHT

/-- Left click, part 1: the gravity toggle button. -/
def clickToggle (x y : Nat) (s : GameState) : GameState :=
  if !s.gPlatformLoss && clickInside x y toggleRect then
    let s1 := { s with
      gGravityOn := !s.gGravityOn
      gPlatformLoss := false
      gPlayerVelY := 0
      gIsOnGround := false
      gPlayerX := PLAYER_START_X
      gPlayerY := PLAYER_START_Y }
    if !s1.gGravityOn && !s1.gBallGrabbed then { s1 with gBallVelY := 0 } else s1
  else s

/-- Left click, part 2: the retry button. -/
def clickRetry (x y : Nat) (s : GameState) : GameState :=
  if s.gPlatformLoss then
    if clickInside x y retryRect then
      { s with
        gPlatformLoss := false
        gPlayerX := PLATFORM_X + Int.tdiv PLATFORM_WIDTH 2 - Int.tdiv PLAYER_WIDTH 2
        gPlayerY := PLATFORM_Y - PLAYER_HEIGHT - 10
        gPlayerVelY := 0
        gIsOnGround := false }
    else s
  else s

/-- Left click, part 3: grabbing the ball. -/
def clickGrab (x y : Nat) (s : GameState) : GameState :=
  if !s.gPlatformLoss then
    if check_collision (ballBoxOf s) (mkRect x y 1 1) then
      { s with gBallGrabbed := true, gBallVelX := 0, gBallVelY := 0 }
    else s
  else s

/-- Body of the polling loop of `handle_events` for one event; the Boolean is `running`. -/
def handle_event (event : SDL_Event) (running : Bool) (s : GameState) : Bool × GameState :=
  let running1 :=
    match event with
    | .SDL_QUIT => false
    | .SDL_KEYDOWN sym => if sym = SDLK_ESCAPE then false else running
    | _ => running
  let s1 :=
    match event with
    | .SDL_MOUSEBUTTONDOWN button x y =>
      if button = SDL_BUTTON_LEFT then
        clickGrab x y (clickRetry x y (clickToggle x y { s with gIsMouseDown := true }))
      else s
    | .SDL_MOUSEBUTTONUP button _ _ =>
      if button = SDL_BUTTON_LEFT then
        { s with gIsMouseDown := false, gBallGrabbed := false }
      else s
    | _ => s
  let s2 :=
    match event with
    | .SDL_MOUSEMOTION mouseX mouseY =>
      match s1.gCursorSurface with
      | some c =>
        { s1 with
          gFollowerX := (mouseX : Int) - Int.tdiv c.w 2
          gFollowerY := (mouseY : Int) - Int.tdiv c.h 2 }
      | none => s1
    | _ => s1
  (running1, s2)

/-- The loop of `handle_events` over the queued events. -/
def handle_events (events : List SDL_Event) (running : Bool) (s : GameState) :
    Bool × GameState :=
  events.foldl (fun acc e => handle_event e acc.1 acc.2) (running, s)

/-- One step of a run: a polled event or an `update_state` tick. -/
inductive Step where
  | event (e : SDL_Event)
  | tick (i : TickInput)
deriving DecidableEq, Repr

def step (s : GameState) : Step → GameState
  | .event e => (handle_event e true s).2
  | .tick i => update_state i s

/-- State after a sequence of events and ticks. -/
def run (steps : List Step) (s : GameState) : GameState :=
  steps.foldl step s

/-- State after consecutive `update_state` ticks with the given inputs. -/
def ticks (inputs : List TickInput) (s : GameState) : GameState :=
  inputs.foldl (fun acc i => update_state i acc) s

/-! ## Predicates and runs used in the statements -/

/-- Two states that differ at most in the four ball variables. -/
def SameExceptBall (a b : GameState) : Prop :=
  a = { b with gBallX := a.gBallX, gBallY := a.gBallY,
               gBallVelX := a.gBallVelX, gBallVelY := a.gBallVelY }

/-- Two states that differ at most in the target variables and the score. -/
def SameExceptTarget (a b : GameState) : Prop :=
  a = { b with gTargetColliding := a.gTargetColliding, gScore := a.gScore,
               gTargetX := a.gTargetX, gTargetY := a.gTargetY }

/-- Two states that differ at most in the player variables and the loss flag. -/
def SameExceptPlayer (a b : GameState) : Prop :=
  a = { b with gPlayerX := a.gPlayerX, gPlayerY := a.gPlayerY,
               gPlayerDirection := a.gPlayerDirection, gIsOnGround := a.gIsOnGround,
               gPlayerVelY := a.gPlayerVelY, gPlatformLoss := a.gPlatformLoss }

/-- The target box lies fully on screen. -/
def TargetOnScreen (s : GameState) : Prop :=
  (0 ≤ s.gTargetX ∧ s.gTargetX ≤ SCREEN_WIDTH - TARGET_WIDTH) ∧
  (0 ≤ s.gTargetY ∧ s.gTargetY ≤ SCREEN_HEIGHT - TARGET_HEIGHT)

/-- A left button press inside the retry button. -/
def isRetryClick : SDL_Event → Bool
  | .SDL_MOUSEBUTTONDOWN button x y =>
    decide (button = SDL_BUTTON_LEFT) && clickInside x y retryRect
  | _ => false

/-- The predicate `platformLoss` implies `gravityOn`. -/
def LossImpliesGravity (s : GameState) : Prop :=
  s.gPlatformLoss = true → s.gGravityOn = true

/-- Exactly one of the four arrow keys is active. -/
def singleArrowKey (i : TickInput) : Bool :=
  (i.keyLeft && !i.keyRight && !i.keyUp && !i.keyDown) ||
  (!i.keyLeft && i.keyRight && !i.keyUp && !i.keyDown) ||
  (!i.keyLeft && !i.keyRight && i.keyUp && !i.keyDown) ||
  (!i.keyLeft && !i.keyRight && !i.keyUp && i.keyDown)

/-- The ball box lies fully on screen. -/
def BallOnScreen (s : GameState) : Prop :=
  (0 ≤ s.gBallX ∧ s.gBallX ≤ ((SCREEN_WIDTH - BALL_WIDTH : Int) : ℚ)) ∧
  (0 ≤ s.gBallY ∧ s.gBallY ≤ ((SCREEN_HEIGHT - BALL_HEIGHT : Int) : ℚ))

/-- A run from the initial state: grab the ball at its start position, carry it to
(610, 310), walk the player down and then right to the screen edge, release the ball. -/
def pushOutRun : List Step :=
  [Step.event (.SDL_MOUSEBUTTONDOWN 1 305 55), Step.event (.SDL_MOUSEMOTION 622 322)] ++
  List.replicate 35 (Step.tick ⟨false, true, false, false, 0, 0⟩) ++
  List.replicate 132 (Step.tick ⟨false, false, false, true, 0, 0⟩) ++
  [Step.event (.SDL_MOUSEBUTTONUP 1 622 322)]

/-- The state reached by `pushOutRun` with a 32x32 cursor image. -/
def pushOutState : GameState :=
  run pushOutRun (initialState (some ⟨32, 32⟩))

/-- The ball step of a tick up to and including the wall bounce (steps 1 to 3). -/
def ballAfterWalls (s : GameState) : GameState :=
  ballWallsY (ballWallsX (ballIntegrate s))

/-- A run from the initial state: grab the ball, carry it to (70, 170) so that its centre
coincides with the centre of the player standing at (50, 150), release it. -/
def dropOnPlayerRun : List Step :=
  [Step.event (.SDL_MOUSEBUTTONDOWN 1 305 55), Step.event (.SDL_MOUSEMOTION 82 182),
   Step.tick ⟨false, false, false, false, 0, 0⟩, Step.event (.SDL_MOUSEBUTTONUP 1 82 182)]

/-- The state reached by `dropOnPlayerRun` with a 32x32 cursor image. -/
def dropOnPlayerState : GameState :=
  run dropOnPlayerRun (initialState (some ⟨32, 32⟩))

/-- Horizontal centre-to-centre displacement computed by the player-collision step. -/
def ballPlayerDx (s : GameState) : Int :=
  truncToInt s.gBallX + Int.tdiv BALL_WIDTH 2 - (s.gPlayerX + Int.tdiv PLAYER_WIDTH 2)

/-- Vertical centre-to-centre displacement computed by the player-collision step. -/
def ballPlayerDy (s : GameState) : Int :=
  truncToInt s.gBallY + Int.tdiv BALL_HEIGHT 2 - (s.gPlayerY + Int.tdiv PLAYER_HEIGHT 2)

/-- None of the four arrow keys is active. -/
def noKeys (i : TickInput) : Bool :=
  !i.keyUp && !i.keyDown && !i.keyLeft && !i.keyRight

/-- The player box overlaps the platform horizontally. -/
def OverPlatform (s : GameState) : Prop :=
  PLATFORM_X - PLAYER_WIDTH < s.gPlayerX ∧ s.gPlayerX < PLATFORM_X + PLATFORM_WIDTH

/-- Platformer mode, no loss, resting on the platform top with `onGround` set. -/
def Standing (s : GameState) : Prop :=
  s.gGravityOn = true ∧ s.gPlatformLoss = false ∧ s.gIsOnGround = true ∧
  s.gPlayerVelY = 0 ∧ s.gPlayerY + PLAYER_HEIGHT = PLATFORM_Y ∧ OverPlatform s

/-- Platformer mode, no loss, at the platform top with `onGround` cleared and one tick of
gravity accumulated. -/
def Ungrounded (s : GameState) : Prop :=
  s.gGravityOn = true ∧ s.gPlatformLoss = false ∧ s.gIsOnGround = false ∧
  s.gPlayerVelY = PLATFORM_GRAVITY ∧ s.gPlayerY + PLAYER_HEIGHT = PLATFORM_Y ∧ OverPlatform s

/-! ## The tick in double arithmetic -/

/-- The power `2 ^ k` as a rational, for an integer exponent. -/
def twoPow (k : Int) : ℚ :=
  if 0 ≤ k then ((2 ^ k.toNat : Nat) : ℚ) else 1 / ((2 ^ (-k).toNat : Nat) : ℚ)

/-- Number of halvings that bring `n` below 2, with a recursion bound. -/
def halvings : Nat → Nat → Nat
  | 0, _ => 0
  | bound + 1, n => if 2 ≤ n then halvings bound (n / 2) + 1 else 0

/-- Position of the leading binary digit of a natural number (0 for 0 and 1). -/
def bitLength (n : Nat) : Nat := halvings n n

/-- Exponent of the leading binary digit of a non-zero rational: the `e` with
`2 ^ e ≤ |q| < 2 ^ (e + 1)`. -/
def binaryExponent (q : ℚ) : Int :=
  let e0 : Int := (bitLength q.num.natAbs : Int) - (bitLength q.den : Int)
  if twoPow e0 ≤ |q| then e0 else e0 - 1

/-- Rounding of a real result to IEEE 754 binary64: nearest value with a 53-bit
significand, ties to the even significand, gradual underflow below `2 ^ (-1022)`.
Overflow to infinity is not modelled. -/
def roundToDouble (q : ℚ) : ℚ :=
  if q = 0 then 0
  else
    let e := max (binaryExponent q) (-1022)
    let ulp := twoPow (e - 52)
    let m := q / ulp
    let f : Int := ⌊m⌋
    let n : Int :=
      if m - f < 1 / 2 then f
      else if m - f > 1 / 2 then f + 1
      else if f % 2 = 0 then f
      else f + 1
    (n : ℚ) * ulp

/-- Double addition `a + b`. -/
def fadd (a b : ℚ) : ℚ := roundToDouble (a + b)

/-- Double multiplication `a * b`. -/
def fmul (a b : ℚ) : ℚ := roundToDouble (a * b)

/-- The double nearest to the literal `0.8` (`BOUNCE_FACTOR` and `PLATFORM_GRAVITY`). -/
def DOUBLE_0_8 : ℚ := roundToDouble (8 / 10)

/-- The double nearest to the literal `0.707`. -/
def DOUBLE_0_707 : ℚ := roundToDouble (707 / 1000)

/-- Grabbed ball, clamping of x: the sum `gBallX + BALL_WIDTH` is a double addition. -/
def ballClampXD (s : GameState) : GameState :=
  let s1 := if s.gBallX < 0 then { s with gBallX := 0 } else s
  if fadd s1.gBallX BALL_WIDTH > SCREEN_WIDTH then
    { s1 with gBallX := ((SCREEN_WIDTH - BALL_WIDTH : Int) : ℚ) }
  else s1

/-- Grabbed ball, clamping of y. -/
def ballClampYD (s : GameState) : GameState :=
  let s1 := if s.gBallY < 0 then { s with gBallY := 0 } else s
  if fadd s1.gBallY BALL_HEIGHT > SCREEN_HEIGHT then
    { s1 with gBallY := ((SCREEN_HEIGHT - BALL_HEIGHT : Int) : ℚ) }
  else s1

/-- Steps 1 and 2 of the ball with double additions. -/
def ballIntegrateD (s : GameState) : GameState :=
  let velY := fadd s.gBallVelY FREE_ROAM_GRAVITY
  { s with gBallVelY := velY, gBallX := fadd s.gBallX s.gBallVelX,
           gBallY := fadd s.gBallY velY }

/-- Step 3, horizontal bounds, with double operations. -/
def ballWallsXD (s : GameState) : GameState :=
  if s.gBallX < 0 then
    { s with gBallX := 0, gBallVelX := fmul s.gBallVelX (-DOUBLE_0_8) }
  else if fadd s.gBallX BALL_WIDTH > SCREEN_WIDTH then
    { s with gBallX := ((SCREEN_WIDTH - BALL_WIDTH : Int) : ℚ),
             gBallVelX := fmul s.gBallVelX (-DOUBLE_0_8) }
  else s

/-- Step 3, vertical bounds, with double operations. -/
def ballWallsYD (s : GameState) : GameState :=
  if s.gBallY < 0 then
    { s with gBallY := 0, gBallVelY := fmul s.gBallVelY (-DOUBLE_0_8) }
  else if fadd s.gBallY BALL_HEIGHT > SCREEN_HEIGHT then
    let velY := fmul s.gBallVelY (-DOUBLE_0_8)
    { s with gBallY := ((SCREEN_HEIGHT - BALL_HEIGHT : Int) : ℚ),
             gBallVelY := if |velY| < FREE_ROAM_GRAVITY then 0 else velY }
  else s

/-- Step 4, player collision, with double multiplications. -/
def ballPlayerCollisionD (s : GameState) : GameState :=
  if !s.gPlatformLoss then
    if check_collision (playerBoxOf s) (ballBoxOf s) then
      let playerCenterX := s.gPlayerX + Int.tdiv PLAYER_WIDTH 2
      let playerCenterY := s.gPlayerY + Int.tdiv PLAYER_HEIGHT 2
      let ballCenterX := truncToInt s.gBallX + Int.tdiv BALL_WIDTH 2
      let ballCenterY := truncToInt s.gBallY + Int.tdiv BALL_HEIGHT 2
      let dx := ballCenterX - playerCenterX
      let dy := ballCenterY - playerCenterY
      if |dx| > |dy| then
        { s with
          gBallVelX := copysign (fmul s.gBallVelX (-DOUBLE_0_8)) dx
          gBallX := if dx > 0 then ((s.gPlayerX + PLAYER_WIDTH : Int) : ℚ)
                    else ((s.gPlayerX - BALL_WIDTH : Int) : ℚ) }
      else
        { s with
          gBallVelY := copysign (fmul s.gBallVelY (-DOUBLE_0_8)) dy
          gBallY := if dy > 0 then ((s.gPlayerY + PLAYER_HEIGHT : Int) : ℚ)
                    else ((s.gPlayerY - BALL_HEIGHT : Int) : ℚ) }
    else s
  else s

/-- Body of `update_ball_physics` with double operations. -/
def update_ball_physicsD (s : GameState) : GameState :=
  if s.gBallGrabbed then
    ballClampYD (ballClampXD (ballFollowCursor s))
  else
    ballPlayerCollisionD (ballWallsYD (ballWallsXD (ballIntegrateD s)))

/-- Branch A of `update_state` with the double product `moveX * speedScale`. -/
def playerFreeRoamD (i : TickInput) (s : GameState) : GameState :=
  let isHorizontal := i.keyLeft || i.keyRight
  let isVertical := i.keyUp || i.keyDown
  let speedScale : ℚ := if isHorizontal && isVertical then DOUBLE_0_707 else 1
  let moveY0 : Int := 0
  let moveY1 := if i.keyUp then moveY0 - PLAYER_VELOCITY else moveY0
  let moveY := if i.keyDown then moveY1 + PLAYER_VELOCITY else moveY1
  let moveX0 : Int := 0
  let moveX1 := if i.keyLeft then moveX0 - PLAYER_VELOCITY else moveX0
  let dir1 := if i.keyLeft then PlayerFacing.PLAYER_FACING_LEFT else s.gPlayerDirection
  let moveX := if i.keyRight then moveX1 + PLAYER_VELOCITY else moveX1
  let dir := if i.keyRight then PlayerFacing.PLAYER_FACING_RIGHT else dir1
  { s with
    gPlayerDirection := dir
    gPlayerX := s.gPlayerX + truncToInt (fmul (moveX : ℚ) speedScale)
    gPlayerY := s.gPlayerY + truncToInt (fmul (moveY : ℚ) speedScale)
    gIsOnGround := false
    gPlayerVelY := 0
    gPlatformLoss := false }

/-- Branch B, step 3, with the double addition `gPlayerVelY += PLATFORM_GRAVITY`. -/
def platformerGravityD (s : GameState) : GameState :=
  let velY := fadd s.gPlayerVelY DOUBLE_0_8
  { s with gPlayerVelY := velY, gPlayerY := s.gPlayerY + truncToInt velY }

/-- Branch B up to and including check 4a, with double operations. -/
def platformerBeforeFloorD (i : TickInput) (s : GameState) : GameState :=
  platformerPlatform (platformerGravityD (platformerJump i (platformerHorizontal i s)))

/-- Branch B of `update_state` with double operations. -/
def playerPlatformerD (i : TickInput) (s : GameState) : GameState :=
  if !s.gPlatformLoss then platformerFloor (platformerBeforeFloorD i s) else s

/-- Player part of `update_state` with double operations. -/
def updatePlayerD (i : TickInput) (s : GameState) : GameState :=
  playerScreenClamp (if !s.gGravityOn then playerFreeRoamD i s else playerPlatformerD i s)

/-- One call of `update_state` with every double operation rounded to binary64. -/
def update_stateD (i : TickInput) (s : GameState) : GameState :=
  targetScoring i (update_ball_physicsD (updatePlayerD i s))

/-- State after consecutive `update_state` ticks in double arithmetic. -/
def ticksD (inputs : List TickInput) (s : GameState) : GameState :=
  inputs.foldl (fun acc i => update_stateD i acc) s

/-- Velocity and position of the player `n` ticks after the retry click while it falls:
each tick performs `gPlayerVelY += PLATFORM_GRAVITY; gPlayerY += (int)gPlayerVelY` in
doubles, starting from `velY = 0`, `y = 39`. -/
def retryFall : Nat → ℚ × Int
  | 0 => (0, 39)
  | n + 1 =>
    (fadd (retryFall n).1 DOUBLE_0_8,
     (retryFall n).2 + truncToInt (fadd (retryFall n).1 DOUBLE_0_8))

/-- The player is in free fall from the retry position, `n` ticks after the retry click. -/
def FallingD (n : Nat) (s : GameState) : Prop :=
  s.gGravityOn = true ∧ s.gPlatformLoss = false ∧ s.gIsOnGround = false ∧
  s.gPlayerVelY = (retryFall n).1 ∧ s.gPlayerY = (retryFall n).2

/-! ## Properties of the collision primitive -/

theorem check_collision_eq_true_iff (A B : SDL_Rect) :
    check_collision A B = true ↔
      (A.x < B.x + B.w ∧ B.x < A.x + A.w) ∧ (A.y < B.y + B.h ∧ B.y < A.y + A.h) := by
  unfold check_collision
  split_ifs <;> simp <;> omega

theorem intervalsMeet_iff (a : Int) (m : Nat) (b : Int) (n : Nat) :
    intervalsMeet a m b n ↔ a < b + n ∧ b < a + m ∧ 0 < m ∧ 0 < n := by
  constructor
  · rintro ⟨p, h1, h2, h3, h4⟩
    omega
  · rintro ⟨h1, h2, h3, h4⟩
    by_cases hab : a ≤ b
    · exact ⟨b, by omega, by omega, by omega, by omega⟩
    · exact ⟨a, by omega, by omega, by omega, by omega⟩

/-- C1 (as stated, refuted): a zero-size rectangle strictly inside another one is
reported as colliding although its half-open intervals are empty. -/
theorem check_collision_zero_size_counterexample :
    ¬ (check_collision ⟨5, 5, 0, 0⟩ ⟨0, 0, 10, 10⟩ = true ↔
        (intervalsMeet 5 0 0 10 ∧ intervalsMeet 5 0 0 10)) := by
  intro h
  have hc : check_collision ⟨5, 5, 0, 0⟩ ⟨0, 0, 10, 10⟩ = true := by decide
  have hm := (h.mp hc).1
  rw [intervalsMeet_iff] at hm
  omega

/-- C1 (amended): for rectangles whose widths and heights are all positive,
`check_collision A B` is true exactly when the half-open x-intervals have a common
point and the half-open y-intervals have a common point. -/
theorem check_collision_iff_intervals_meet (A B : SDL_Rect)
    (hAw : 0 < A.w) (hAh : 0 < A.h) (hBw : 0 < B.w) (hBh : 0 < B.h) :
    check_collision A B = true ↔
      (intervalsMeet A.x A.w B.x B.w ∧ intervalsMeet A.y A.h B.y B.h) := by
  rw [check_collision_eq_true_iff, intervalsMeet_iff, intervalsMeet_iff]
  constructor
  · rintro ⟨⟨h1, h2⟩, h3, h4⟩
    exact ⟨⟨h1, h2, hAw, hBw⟩, h3, h4, hAh, hBh⟩
  · rintro ⟨⟨h1, h2, _, _⟩, h3, h4, _, _⟩
    exact ⟨⟨h1, h2⟩, h3, h4⟩

theorem check_collision_iff_intervals_meet_witness :
    (0 < (⟨0, 0, 64, 64⟩ : SDL_Rect).w) ∧
    (check_collision ⟨0, 0, 64, 64⟩ ⟨63, 63, 100, 100⟩ = true ↔
      (intervalsMeet 0 64 63 100 ∧ intervalsMeet 0 64 63 100)) :=
  ⟨by decide,
   check_collision_iff_intervals_meet ⟨0, 0, 64, 64⟩ ⟨63, 63, 100, 100⟩
     (by decide) (by decide) (by decide) (by decide)⟩

/-- C8: `check_collision` is symmetric in its two rectangles. -/
theorem check_collision_symm (A B : SDL_Rect) :
    check_collision A B = check_collision B A := by
  rw [Bool.eq_iff_iff, check_collision_eq_true_iff, check_collision_eq_true_iff]
  constructor <;> rintro ⟨⟨h1, h2⟩, h3, h4⟩ <;> exact ⟨⟨h2, h1⟩, h4, h3⟩

/-! ## Frame lemmas: what the later stages of a tick leave untouched -/

theorem sameExceptBall_refl (s : GameState) : SameExceptBall s s := rfl

theorem sameExceptBall_trans {a b c : GameState}
    (h1 : SameExceptBall a b) (h2 : SameExceptBall b c) : SameExceptBall a c := by
  unfold SameExceptBall at *
  rw [h2] at h1
  rw [h1]

theorem ballFollowCursor_frame (s : GameState) : SameExceptBall (ballFollowCursor s) s := by
  unfold ballFollowCursor
  split <;> rfl

theorem ballClampX_frame (s : GameState) : SameExceptBall (ballClampX s) s := by
  simp only [ballClampX]
  split_ifs <;> rfl

theorem ballClampY_frame (s : GameState) : SameExceptBall (ballClampY s) s := by
  simp only [ballClampY]
  split_ifs <;> rfl

theorem ballIntegrate_frame (s : GameState) : SameExceptBall (ballIntegrate s) s := rfl

theorem ballWallsX_frame (s : GameState) : SameExceptBall (ballWallsX s) s := by
  simp only [ballWallsX]
  split_ifs <;> rfl

theorem ballWallsY_frame (s : GameState) : SameExceptBall (ballWallsY s) s := by
  simp only [ballWallsY]
  split_ifs <;> rfl

theorem ballPlayerCollision_frame (s : GameState) :
    SameExceptBall (ballPlayerCollision s) s := by
  simp only [ballPlayerCollision]
  split_ifs <;> rfl

theorem update_ball_physics_frame (s : GameState) :
    SameExceptBall (update_ball_physics s) s := by
  unfold update_ball_physics
  split_ifs
  · exact sameExceptBall_trans (sameExceptBall_trans (ballClampY_frame _) (ballClampX_frame _))
      (ballFollowCursor_frame _)
  · exact sameExceptBall_trans (sameExceptBall_trans (sameExceptBall_trans
      (ballPlayerCollision_frame _) (ballWallsY_frame _)) (ballWallsX_frame _))
      (ballIntegrate_frame _)

theorem targetScoring_frame (i : TickInput) (s : GameState) :
    SameExceptTarget (targetScoring i s) s := by
  simp only [targetScoring, move_target_randomly]
  split_ifs <;> rfl

/-- The player variables and mode flags after a tick are those left by the player part. -/
theorem update_state_player_fields (i : TickInput) (s : GameState) :
    (update_state i s).gPlayerX = (updatePlayer i s).gPlayerX ∧
    (update_state i s).gPlayerY = (updatePlayer i s).gPlayerY ∧
    (update_state i s).gGravityOn = (updatePlayer i s).gGravityOn ∧
    (update_state i s).gPlatformLoss = (updatePlayer i s).gPlatformLoss ∧
    (update_state i s).gPlayerVelY = (updatePlayer i s).gPlayerVelY ∧
    (update_state i s).gIsOnGround = (updatePlayer i s).gIsOnGround := by
  have h1 := targetScoring_frame i (update_ball_physics (updatePlayer i s))
  have h2 := update_ball_physics_frame (updatePlayer i s)
  unfold SameExceptTarget at h1
  unfold SameExceptBall at h2
  unfold update_state
  rw [h1]
  simp only
  rw [h2]
  simp only [and_self]

theorem sameExceptPlayer_refl (s : GameState) : SameExceptPlayer s s := rfl

theorem sameExceptPlayer_trans {a b c : GameState}
    (h1 : SameExceptPlayer a b) (h2 : SameExceptPlayer b c) : SameExceptPlayer a c := by
  unfold SameExceptPlayer at *
  rw [h2] at h1
  rw [h1]

theorem playerFreeRoam_frame (i : TickInput) (s : GameState) :
    SameExceptPlayer (playerFreeRoam i s) s := rfl

theorem platformerHorizontal_frame (i : TickInput) (s : GameState) :
    SameExceptPlayer (platformerHorizontal i s) s := by
  simp only [platformerHorizontal]
  split_ifs <;> rfl

theorem platformerJump_frame (i : TickInput) (s : GameState) :
    SameExceptPlayer (platformerJump i s) s := by
  simp only [platformerJump]
  split_ifs <;> rfl

theorem platformerGravity_frame (s : GameState) :
    SameExceptPlayer (platformerGravity s) s := rfl

theorem platformerPlatform_frame (s : GameState) :
    SameExceptPlayer (platformerPlatform s) s := by
  simp only [platformerPlatform]
  split_ifs <;> rfl

theorem platformerFloor_frame (s : GameState) :
    SameExceptPlayer (platformerFloor s) s := by
  simp only [platformerFloor]
  split_ifs <;> rfl

theorem playerPlatformer_frame (i : TickInput) (s : GameState) :
    SameExceptPlayer (playerPlatformer i s) s := by
  simp only [playerPlatformer, platformerBeforeFloor]
  split_ifs
  · exact sameExceptPlayer_trans (sameExceptPlayer_trans (sameExceptPlayer_trans
      (sameExceptPlayer_trans (platformerFloor_frame _) (platformerPlatform_frame _))
      (platformerGravity_frame _)) (platformerJump_frame i _))
      (platformerHorizontal_frame i _)
  · rfl

theorem playerScreenClamp_frame (s : GameState) :
    SameExceptPlayer (playerScreenClamp s) s := by
  simp only [playerScreenClamp]
  split_ifs <;> rfl

theorem updatePlayer_frame (i : TickInput) (s : GameState) :
    SameExceptPlayer (updatePlayer i s) s := by
  unfold updatePlayer
  split_ifs
  · exact sameExceptPlayer_trans (playerScreenClamp_frame _) (playerFreeRoam_frame i s)
  · exact sameExceptPlayer_trans (playerScreenClamp_frame _) (playerPlatformer_frame i s)

/-- The state on which the scoring check of a tick runs has the player of the player
part and the target, flag and score of the state before the tick. -/
theorem before_scoring_fields (i : TickInput) (s : GameState) :
    playerBoxOf (update_ball_physics (updatePlayer i s)) = playerBoxOf (updatePlayer i s) ∧
    targetBoxOf (update_ball_physics (updatePlayer i s)) = targetBoxOf s ∧
    (update_ball_physics (updatePlayer i s)).gTargetColliding = s.gTargetColliding ∧
    (update_ball_physics (updatePlayer i s)).gScore = s.gScore ∧
    (update_ball_physics (updatePlayer i s)).gTargetX = s.gTargetX ∧
    (update_ball_physics (updatePlayer i s)).gTargetY = s.gTargetY := by
  have h1 := update_ball_physics_frame (updatePlayer i s)
  have h2 := updatePlayer_frame i s
  unfold SameExceptBall at h1
  unfold SameExceptPlayer at h2
  unfold playerBoxOf targetBoxOf
  rw [h1]
  simp only
  rw [h2]
  simp only [and_self]

/-! ## Player position after a tick -/

theorem playerScreenClamp_x (s : GameState) :
    0 ≤ (playerScreenClamp s).gPlayerX ∧
      (playerScreenClamp s).gPlayerX ≤ SCREEN_WIDTH - PLAYER_WIDTH := by
  simp only [playerScreenClamp, SCREEN_WIDTH, PLAYER_WIDTH, SCREEN_HEIGHT, PLAYER_HEIGHT]
  split_ifs <;> first | omega | (simp only; omega)

theorem playerScreenClamp_y (s : GameState) (hg : s.gGravityOn = false) :
    0 ≤ (playerScreenClamp s).gPlayerY ∧
      (playerScreenClamp s).gPlayerY ≤ SCREEN_HEIGHT - PLAYER_HEIGHT := by
  simp only [playerScreenClamp, SCREEN_WIDTH, PLAYER_WIDTH, SCREEN_HEIGHT, PLAYER_HEIGHT]
  split_ifs <;> simp_all <;> omega

theorem playerFreeRoam_gGravityOn (i : TickInput) (s : GameState) :
    (playerFreeRoam i s).gGravityOn = s.gGravityOn := rfl

/-- C3: after one `update_state` tick the player satisfies `0 ≤ x ≤ 576`, and when
gravity is off for that tick also `0 ≤ y ≤ 416`, for every state and key combination. -/
theorem update_state_player_on_screen (i : TickInput) (s : GameState) :
    (0 ≤ (update_state i s).gPlayerX ∧ (update_state i s).gPlayerX ≤ 576) ∧
    (s.gGravityOn = false →
      0 ≤ (update_state i s).gPlayerY ∧ (update_state i s).gPlayerY ≤ 416) := by
  obtain ⟨hx, hy, -⟩ := update_state_player_fields i s
  rw [hx, hy]
  unfold updatePlayer
  refine ⟨playerScreenClamp_x _, ?_⟩
  intro hg
  have h := playerScreenClamp_y (playerFreeRoam i s) hg
  simpa [hg, SCREEN_HEIGHT, PLAYER_HEIGHT] using h

theorem update_state_player_on_screen_witness :
    (initialState none).gGravityOn = false ∧
    0 ≤ (update_state ⟨true, false, true, false, 0, 0⟩ (initialState none)).gPlayerY ∧
    (update_state ⟨true, false, true, false, 0, 0⟩ (initialState none)).gPlayerY ≤ 416 :=
  ⟨rfl, (update_state_player_on_screen ⟨true, false, true, false, 0, 0⟩
    (initialState none)).2 rfl⟩

/-! ## Scoring -/

theorem targetScoring_gScore (i : TickInput) (s : GameState) :
    (targetScoring i s).gScore =
      if s.gTargetColliding = false ∧ check_collision (playerBoxOf s) (targetBoxOf s) = true
      then s.gScore + 1 else s.gScore := by
  simp only [targetScoring, move_target_randomly]
  cases hc : check_collision (playerBoxOf s) (targetBoxOf s) <;>
    cases hw : s.gTargetColliding <;> simp

theorem update_state_gScore (i : TickInput) (s : GameState) :
    (update_state i s).gScore =
      if s.gTargetColliding = false ∧
          check_collision (playerBoxOf (updatePlayer i s)) (targetBoxOf s) = true
      then s.gScore + 1 else s.gScore := by
  obtain ⟨hp, ht, hc, hs, -⟩ := before_scoring_fields i s
  unfold update_state
  rw [targetScoring_gScore, hp, ht, hc, hs]

theorem ticks_cons (i : TickInput) (inputs : List TickInput) (s : GameState) :
    ticks (i :: inputs) s = ticks inputs (update_state i s) := rfl

theorem ticks_gScore_of_flag (inputs : List TickInput) :
    ∀ s : GameState,
      (∀ k, k < inputs.length → (ticks (inputs.take k) s).gTargetColliding = true) →
      (ticks inputs s).gScore = s.gScore := by
  induction inputs with
  | nil => intro s _; rfl
  | cons i rest ih =>
    intro s h
    have h0 : s.gTargetColliding = true := h 0 (by simp)
    rw [ticks_cons, ih (update_state i s), update_state_gScore, h0]
    · simp
    · intro k hk
      have := h (k + 1) (by simpa using hk)
      simpa [ticks_cons] using this

/-- C4: one `update_state` tick adds exactly 1 to the score when the target-colliding
flag was false before the tick and the updated player box overlaps the target box, and
leaves the score unchanged otherwise; over a run of ticks before each of which the flag
is true the score does not change. -/
theorem update_state_score_edge (i : TickInput) (s : GameState) :
    ((update_state i s).gScore =
      if s.gTargetColliding = false ∧
          check_collision (playerBoxOf (update_ball_physics (updatePlayer i s)))
            (targetBoxOf s) = true
      then s.gScore + 1 else s.gScore) ∧
    (∀ inputs : List TickInput,
      (∀ k, k < inputs.length → (ticks (inputs.take k) s).gTargetColliding = true) →
      (ticks inputs s).gScore = s.gScore) := by
  refine ⟨?_, fun inputs h => ticks_gScore_of_flag inputs s h⟩
  rw [(before_scoring_fields i s).1]
  exact update_state_gScore i s

theorem update_state_score_edge_witness :
    (∀ k, k < ([⟨false, false, false, false, 0, 0⟩, ⟨false, false, false, false, 0, 0⟩] :
          List TickInput).length →
      (ticks (([⟨false, false, false, false, 0, 0⟩, ⟨false, false, false, false, 0, 0⟩] :
          List TickInput).take k)
        { initialState none with gPlayerX := 490, gPlayerY := 330,
                                 gTargetColliding := true }).gTargetColliding = true) ∧
    (ticks [⟨false, false, false, false, 0, 0⟩, ⟨false, false, false, false, 0, 0⟩]
      { initialState none with gPlayerX := 490, gPlayerY := 330,
                               gTargetColliding := true }).gScore = 0 := by
  have h : ∀ k, k < ([⟨false, false, false, false, 0, 0⟩, ⟨false, false, false, false, 0, 0⟩] :
          List TickInput).length →
      (ticks (([⟨false, false, false, false, 0, 0⟩, ⟨false, false, false, false, 0, 0⟩] :
          List TickInput).take k)
        { initialState none with gPlayerX := 490, gPlayerY := 330,
                                 gTargetColliding := true }).gTargetColliding = true := by
    intro k hk
    have hk2 : k < 2 := hk
    interval_cases k <;> decide!
  exact ⟨h, (update_state_score_edge ⟨false, false, false, false, 0, 0⟩ _).2 _ h⟩

/-! ## Target relocation stays on screen -/

theorem move_target_randomly_on_screen (r1 r2 : Nat) (s : GameState) :
    TargetOnScreen (move_target_randomly r1 r2 s) := by
  simp only [TargetOnScreen, move_target_randomly, SCREEN_WIDTH, TARGET_WIDTH, SCREEN_HEIGHT,
    TARGET_HEIGHT]
  have h1 := Int.tmod_nonneg (540 : Int) (Int.ofNat_nonneg r1)
  have h2 := Int.tmod_lt_of_pos (r1 : Int) (show (0 : Int) < 540 by decide)
  have h3 := Int.tmod_nonneg (380 : Int) (Int.ofNat_nonneg r2)
  have h4 := Int.tmod_lt_of_pos (r2 : Int) (show (0 : Int) < 380 by decide)
  norm_num
  omega

theorem targetScoring_on_screen (i : TickInput) (s : GameState) (h : TargetOnScreen s) :
    TargetOnScreen (targetScoring i s) := by
  simp only [targetScoring]
  split_ifs
  · exact move_target_randomly_on_screen _ _ _
  · exact h

theorem update_state_target_on_screen (i : TickInput) (s : GameState)
    (h : TargetOnScreen s) : TargetOnScreen (update_state i s) := by
  unfold update_state
  apply targetScoring_on_screen
  obtain ⟨-, -, -, -, hx, hy⟩ := before_scoring_fields i s
  unfold TargetOnScreen
  rw [hx, hy]
  exact h

/-- Event handling never writes the target position. -/
theorem handle_event_target (e : SDL_Event) (r : Bool) (s : GameState) :
    (handle_event e r s).2.gTargetX = s.gTargetX ∧
    (handle_event e r s).2.gTargetY = s.gTargetY := by
  cases e <;> simp only [handle_event, clickGrab, clickRetry, clickToggle] <;>
    (repeat' split) <;> simp

theorem step_target_on_screen (st : Step) (s : GameState) (h : TargetOnScreen s) :
    TargetOnScreen (step s st) := by
  cases st with
  | event e =>
    obtain ⟨hx, hy⟩ := handle_event_target e true s
    simp only [step, TargetOnScreen, hx, hy]
    exact h
  | tick i => exact update_state_target_on_screen i s h

theorem run_target_on_screen (steps : List Step) :
    ∀ s : GameState, TargetOnScreen s → TargetOnScreen (run steps s) := by
  induction steps with
  | nil => intro s h; exact h
  | cons st rest ih => intro s h; exact ih (step s st) (step_target_on_screen st s h)

/-- C5: whatever two values `rand()` returns, `move_target_randomly` leaves the target
with `0 ≤ x ≤ 540` and `0 ≤ y ≤ 380`; and from the initial state (target at (490, 330))
the target is on screen after every sequence of events and ticks. -/
theorem move_target_randomly_keeps_target_on_screen :
    (∀ (r1 r2 : Nat) (s : GameState),
      (0 ≤ (move_target_randomly r1 r2 s).gTargetX ∧
        (move_target_randomly r1 r2 s).gTargetX ≤ 540) ∧
      (0 ≤ (move_target_randomly r1 r2 s).gTargetY ∧
        (move_target_randomly r1 r2 s).gTargetY ≤ 380)) ∧
    ((initialState none).gTargetX = 490 ∧ (initialState none).gTargetY = 330) ∧
    (∀ (cursor : Option SDL_Surface) (steps : List Step),
      (0 ≤ (run steps (initialState cursor)).gTargetX ∧
        (run steps (initialState cursor)).gTargetX ≤ 540) ∧
      (0 ≤ (run steps (initialState cursor)).gTargetY ∧
        (run steps (initialState cursor)).gTargetY ≤ 380)) := by
  refine ⟨fun r1 r2 s => move_target_randomly_on_screen r1 r2 s, ⟨rfl, rfl⟩, ?_⟩
  intro cursor steps
  apply run_target_on_screen steps (initialState cursor)
  simp only [TargetOnScreen, initialState, SCREEN_WIDTH, TARGET_WIDTH, SCREEN_HEIGHT,
    TARGET_HEIGHT]
  omega

/-! ## The loss flag -/

theorem playerScreenClamp_flags (s : GameState) :
    (playerScreenClamp s).gPlatformLoss = s.gPlatformLoss ∧
    (playerScreenClamp s).gGravityOn = s.gGravityOn ∧
    (playerScreenClamp s).gPlayerVelY = s.gPlayerVelY ∧
    (playerScreenClamp s).gIsOnGround = s.gIsOnGround := by
  simp only [playerScreenClamp]
  split_ifs <;> simp only [and_self]

theorem playerScreenClamp_gPlayerY_of_gravity (s : GameState) (hg : s.gGravityOn = true) :
    (playerScreenClamp s).gPlayerY = s.gPlayerY := by
  simp only [playerScreenClamp]
  split_ifs <;> simp_all

theorem updatePlayer_gGravityOn (i : TickInput) (s : GameState) :
    (updatePlayer i s).gGravityOn = s.gGravityOn := by
  have h := updatePlayer_frame i s
  unfold SameExceptPlayer at h
  rw [h]

theorem updatePlayer_of_gravity (i : TickInput) (s : GameState) (hg : s.gGravityOn = true) :
    updatePlayer i s = playerScreenClamp (playerPlatformer i s) := by
  simp [updatePlayer, hg]

theorem playerPlatformer_gGravityOn (i : TickInput) (s : GameState) :
    (playerPlatformer i s).gGravityOn = s.gGravityOn := by
  have h := playerPlatformer_frame i s
  unfold SameExceptPlayer at h
  rw [h]

theorem update_state_gGravityOn (i : TickInput) (s : GameState) :
    (update_state i s).gGravityOn = s.gGravityOn := by
  rw [(update_state_player_fields i s).2.2.1, updatePlayer_gGravityOn]

theorem update_state_loss_of_gravity_off (i : TickInput) (s : GameState)
    (hg : s.gGravityOn = false) : (update_state i s).gPlatformLoss = false := by
  rw [(update_state_player_fields i s).2.2.2.1]
  simp only [updatePlayer, hg, Bool.not_false, if_true]
  rw [(playerScreenClamp_flags _).1]
  rfl

theorem update_state_loss_latched (i : TickInput) (s : GameState)
    (hg : s.gGravityOn = true) (hl : s.gPlatformLoss = true) :
    (update_state i s).gPlatformLoss = true := by
  rw [(update_state_player_fields i s).2.2.2.1, updatePlayer_of_gravity i s hg,
    (playerScreenClamp_flags _).1]
  simp [playerPlatformer, hl]

/-- What the floor check of a platformer tick does once the player's bottom edge has
reached the bottom of the screen. -/
theorem update_state_floor_loss (i : TickInput) (s : GameState)
    (hg : s.gGravityOn = true) (hl : s.gPlatformLoss = false)
    (hb : (platformerBeforeFloor i s).gPlayerY + PLAYER_HEIGHT ≥ SCREEN_HEIGHT) :
    (update_state i s).gPlatformLoss = true ∧
    (update_state i s).gPlayerY = 416 ∧
    (update_state i s).gPlayerVelY = 0 ∧
    (update_state i s).gIsOnGround = true := by
  obtain ⟨-, hy, -, hloss, hv, hgr⟩ := update_state_player_fields i s
  obtain ⟨cl, -, cv, cg⟩ := playerScreenClamp_flags (playerPlatformer i s)
  have hgp : (playerPlatformer i s).gGravityOn = true := by
    rw [playerPlatformer_gGravityOn, hg]
  have hp : playerPlatformer i s = platformerFloor (platformerBeforeFloor i s) := by
    simp [playerPlatformer, hl]
  rw [hy, hloss, hv, hgr, updatePlayer_of_gravity i s hg, cl, cv, cg,
    playerScreenClamp_gPlayerY_of_gravity _ hgp, hp]
  rw [platformerFloor, if_pos hb]
  exact ⟨rfl, rfl, rfl, rfl⟩

theorem ticks_loss_latched (inputs : List TickInput) :
    ∀ s : GameState, s.gGravityOn = true → s.gPlatformLoss = true →
      (ticks inputs s).gPlatformLoss = true ∧ (ticks inputs s).gGravityOn = true := by
  induction inputs with
  | nil => intro s hg hl; exact ⟨hl, hg⟩
  | cons i rest ih =>
    intro s hg hl
    rw [ticks_cons]
    exact ih _ (by rw [update_state_gGravityOn, hg]) (update_state_loss_latched i s hg hl)

theorem clickToggle_of_loss (x y : Nat) (s : GameState) (hl : s.gPlatformLoss = true) :
    clickToggle x y s = s := by
  simp [clickToggle, hl]

theorem clickGrab_of_loss (x y : Nat) (s : GameState) (hl : s.gPlatformLoss = true) :
    clickGrab x y s = s := by
  simp [clickGrab, hl]

theorem clickGrab_flags (x y : Nat) (s : GameState) :
    (clickGrab x y s).gPlatformLoss = s.gPlatformLoss ∧
    (clickGrab x y s).gGravityOn = s.gGravityOn := by
  simp only [clickGrab]
  split_ifs <;> simp only [and_self]

theorem clickRetry_flags (x y : Nat) (s : GameState) :
    (clickRetry x y s).gPlatformLoss = (s.gPlatformLoss && !clickInside x y retryRect) ∧
    (clickRetry x y s).gGravityOn = s.gGravityOn := by
  simp only [clickRetry]
  split_ifs <;> simp_all

theorem clickToggle_flags (x y : Nat) (s : GameState) :
    ((clickToggle x y s).gPlatformLoss = true →
      s.gPlatformLoss = true ∧ (clickToggle x y s).gGravityOn = s.gGravityOn) := by
  simp only [clickToggle]
  split_ifs <;> simp_all

/-- Loss flag and gravity flag after the three parts of a left click. -/
theorem leftClick_flags (x y : Nat) (s : GameState) :
    ((clickGrab x y (clickRetry x y (clickToggle x y s))).gPlatformLoss = true →
      s.gPlatformLoss = true ∧
      (clickGrab x y (clickRetry x y (clickToggle x y s))).gGravityOn = s.gGravityOn) ∧
    (s.gPlatformLoss = true →
      (clickGrab x y (clickRetry x y (clickToggle x y s))).gPlatformLoss =
        !clickInside x y retryRect) := by
  obtain ⟨g1, g2⟩ := clickGrab_flags x y (clickRetry x y (clickToggle x y s))
  obtain ⟨r1, r2⟩ := clickRetry_flags x y (clickToggle x y s)
  have t1 := clickToggle_flags x y s
  rw [g1, g2, r1, r2]
  constructor
  · intro h
    simp only [Bool.and_eq_true] at h
    exact t1 h.1
  · intro hl
    rw [clickToggle_of_loss x y s hl]
    simp [hl]

/-- Loss flag and gravity flag after one event, in terms of the state before it. -/
theorem handle_event_flags (e : SDL_Event) (r : Bool) (s : GameState) :
    ((handle_event e r s).2.gPlatformLoss = true →
      s.gPlatformLoss = true ∧ (handle_event e r s).2.gGravityOn = s.gGravityOn) ∧
    (s.gPlatformLoss = true →
      (handle_event e r s).2.gPlatformLoss = !isRetryClick e) := by
  cases e with
  | SDL_MOUSEBUTTONDOWN button x y =>
    simp only [handle_event, isRetryClick]
    by_cases hb : button = SDL_BUTTON_LEFT
    · simp only [hb, if_true, decide_True, Bool.true_and]
      exact leftClick_flags x y { s with gIsMouseDown := true }
    · simp [hb]
  | SDL_MOUSEMOTION x y =>
    simp only [handle_event, isRetryClick]
    cases s.gCursorSurface <;> simp
  | SDL_MOUSEBUTTONUP button x y =>
    simp only [handle_event, isRetryClick]
    split_ifs <;> simp
  | _ => simp [handle_event, isRetryClick]

theorem run_cons (st : Step) (steps : List Step) (s : GameState) :
    run (st :: steps) s = run steps (step s st) := rfl

theorem step_loss_latched (st : Step) (s : GameState)
    (hg : s.gGravityOn = true) (hl : s.gPlatformLoss = true)
    (hr : ∀ e, st = Step.event e → isRetryClick e = false) :
    (step s st).gPlatformLoss = true ∧ (step s st).gGravityOn = true := by
  cases st with
  | event e =>
    obtain ⟨h1, h2⟩ := handle_event_flags e true s
    have hl2 : (handle_event e true s).2.gPlatformLoss = true := by
      rw [h2 hl, hr e rfl]
      rfl
    exact ⟨hl2, (h1 hl2).2.trans hg⟩
  | tick i =>
    exact ⟨update_state_loss_latched i s hg hl, by
      simp only [step]
      rw [update_state_gGravityOn, hg]⟩

theorem run_loss_latched (steps : List Step) :
    ∀ s : GameState, s.gGravityOn = true → s.gPlatformLoss = true →
      (∀ e, Step.event e ∈ steps → isRetryClick e = false) →
      (run steps s).gPlatformLoss = true := by
  induction steps with
  | nil => intro s _ hl _; exact hl
  | cons st rest ih =>
    intro s hg hl hr
    obtain ⟨h1, h2⟩ := step_loss_latched st s hg hl
      (fun e he => hr e (by rw [he]; exact List.mem_cons_self _ _))
    rw [run_cons]
    exact ih _ h2 h1 (fun e he => hr e (List.mem_cons_of_mem _ he))

/-- C6: in platformer mode, a tick that starts without loss and whose vertical
integration and platform check leave the player's bottom edge at or below the screen
bottom ends with `platformLoss` true, `player.y = 416`, `velY = 0` and `onGround` true;
and once `platformLoss` is true every tick keeps it true, over any number of ticks and
any events other than a left click on the retry button, which clears it. -/
theorem platformLoss_latches (s : GameState) (hg : s.gGravityOn = true) :
    (∀ i : TickInput, s.gPlatformLoss = false →
      (platformerBeforeFloor i s).gPlayerY + PLAYER_HEIGHT ≥ SCREEN_HEIGHT →
      (update_state i s).gPlatformLoss = true ∧
      (update_state i s).gPlayerY = 416 ∧
      (update_state i s).gPlayerVelY = 0 ∧
      (update_state i s).gIsOnGround = true) ∧
    (s.gPlatformLoss = true →
      (∀ i : TickInput, (update_state i s).gPlatformLoss = true) ∧
      (∀ inputs : List TickInput, (ticks inputs s).gPlatformLoss = true) ∧
      (∀ steps : List Step, (∀ e, Step.event e ∈ steps → isRetryClick e = false) →
        (run steps s).gPlatformLoss = true) ∧
      (∀ (e : SDL_Event) (r : Bool), isRetryClick e = true →
        (handle_event e r s).2.gPlatformLoss = false)) := by
  refine ⟨fun i hl hb => update_state_floor_loss i s hg hl hb, fun hl => ⟨?_, ?_, ?_, ?_⟩⟩
  · exact fun i => update_state_loss_latched i s hg hl
  · exact fun inputs => (ticks_loss_latched inputs s hg hl).1
  · exact fun steps hr => run_loss_latched steps s hg hl hr
  · intro e r he
    rw [(handle_event_flags e r s).2 hl, he]
    rfl

theorem platformLoss_latches_witness :
    ({ initialState none with gGravityOn := true, gPlayerY := 416 } : GameState).gGravityOn
      = true ∧
    ((update_state ⟨false, false, false, false, 0, 0⟩
        { initialState none with gGravityOn := true, gPlayerY := 416 }).gPlatformLoss = true ∧
     (update_state ⟨false, false, false, false, 0, 0⟩
        { initialState none with gGravityOn := true, gPlayerY := 416 }).gPlayerY = 416 ∧
     (update_state ⟨false, false, false, false, 0, 0⟩
        { initialState none with gGravityOn := true, gPlayerY := 416 }).gPlayerVelY = 0 ∧
     (update_state ⟨false, false, false, false, 0, 0⟩
        { initialState none with gGravityOn := true, gPlayerY := 416 }).gIsOnGround = true) ∧
    (ticks [⟨true, false, true, false, 0, 0⟩, ⟨false, false, false, true, 0, 0⟩]
        { initialState none with gGravityOn := true, gPlatformLoss := true }).gPlatformLoss
      = true :=
  ⟨rfl,
   (platformLoss_latches { initialState none with gGravityOn := true, gPlayerY := 416 } rfl).1
     ⟨false, false, false, false, 0, 0⟩ rfl (by decide!),
   ((platformLoss_latches { initialState none with gGravityOn := true, gPlatformLoss := true }
     rfl).2 rfl).2.1 _⟩

theorem update_state_lossImpliesGravity (i : TickInput) (s : GameState) :
    LossImpliesGravity (update_state i s) := by
  intro hl
  rw [update_state_gGravityOn]
  cases hg : s.gGravityOn
  · rw [update_state_loss_of_gravity_off i s hg] at hl
    exact absurd hl (by decide)
  · rfl

theorem handle_event_lossImpliesGravity (e : SDL_Event) (r : Bool) (s : GameState)
    (h : LossImpliesGravity s) : LossImpliesGravity (handle_event e r s).2 := by
  intro hl
  obtain ⟨h1, h2⟩ := (handle_event_flags e r s).1 hl
  rw [h2]
  exact h h1

theorem run_lossImpliesGravity (steps : List Step) :
    ∀ s : GameState, LossImpliesGravity s → LossImpliesGravity (run steps s) := by
  induction steps with
  | nil => intro s h; exact h
  | cons st rest ih =>
    intro s h
    rw [run_cons]
    apply ih
    cases st with
    | event e => exact handle_event_lossImpliesGravity e true s h
    | tick i => exact update_state_lossImpliesGravity i s

/-- C7: `platformLoss` implies `gravityOn` holds initially and is preserved by every
`update_state` tick and by every event (gravity-toggle click and retry click included),
hence in every reachable state; a tick run with gravity off ends with `platformLoss`
false, and a tick turns `platformLoss` from false to true only with gravity on. -/
theorem platformLoss_implies_gravityOn_invariant :
    (∀ cursor : Option SDL_Surface, LossImpliesGravity (initialState cursor)) ∧
    (∀ (i : TickInput) (s : GameState),
      LossImpliesGravity s → LossImpliesGravity (update_state i s)) ∧
    (∀ (e : SDL_Event) (r : Bool) (s : GameState),
      LossImpliesGravity s → LossImpliesGravity (handle_event e r s).2) ∧
    (∀ (cursor : Option SDL_Surface) (steps : List Step),
      LossImpliesGravity (run steps (initialState cursor))) ∧
    (∀ (i : TickInput) (s : GameState),
      s.gGravityOn = false → (update_state i s).gPlatformLoss = false) ∧
    (∀ (i : TickInput) (s : GameState),
      s.gPlatformLoss = false → (update_state i s).gPlatformLoss = true →
      s.gGravityOn = true) := by
  have h0 : ∀ cursor : Option SDL_Surface, LossImpliesGravity (initialState cursor) := by
    intro cursor hl
    exact absurd hl (by simp [initialState])
  refine ⟨h0, fun i s _ => update_state_lossImpliesGravity i s,
    handle_event_lossImpliesGravity, fun cursor steps => run_lossImpliesGravity steps _ (h0 cursor),
    update_state_loss_of_gravity_off, ?_⟩
  intro i s _ hl
  have h := update_state_lossImpliesGravity i s hl
  rwa [update_state_gGravityOn] at h

theorem platformLoss_implies_gravityOn_invariant_witness :
    (initialState none).gGravityOn = false ∧
    (update_state ⟨false, true, false, false, 0, 0⟩ (initialState none)).gPlatformLoss = false :=
  ⟨rfl, platformLoss_implies_gravityOn_invariant.2.2.2.2.1 _ _ rfl⟩

/-! ## Free-roam diagonal movement -/

theorem truncToInt_intCast (n : Int) : truncToInt (n : ℚ) = n := by
  unfold truncToInt
  split_ifs <;> simp

theorem truncToInt_diag_pos : truncToInt ((4 : ℚ) * (707 / 1000)) = 2 := by
  norm_num [truncToInt, Int.floor_eq_iff]

theorem truncToInt_diag_neg : truncToInt (-((4 : ℚ) * (707 / 1000))) = -2 := by
  norm_num [truncToInt, Int.ceil_eq_iff]

theorem playerScreenClamp_of_inside (s : GameState)
    (hx0 : 0 ≤ s.gPlayerX) (hx1 : s.gPlayerX + PLAYER_WIDTH ≤ SCREEN_WIDTH)
    (hy0 : 0 ≤ s.gPlayerY) (hy1 : s.gPlayerY + PLAYER_HEIGHT ≤ SCREEN_HEIGHT) :
    playerScreenClamp s = s := by
  simp only [playerScreenClamp]
  split_ifs <;> first | rfl | omega

/-- Displacement of the free-roam branch with one horizontal and one vertical key. -/
theorem playerFreeRoam_diagonal (i : TickInput) (s : GameState)
    (hh : i.keyLeft ≠ i.keyRight) (hv : i.keyUp ≠ i.keyDown) :
    (playerFreeRoam i s).gPlayerX = s.gPlayerX + (if i.keyRight then 2 else -2) ∧
    (playerFreeRoam i s).gPlayerY = s.gPlayerY + (if i.keyDown then 2 else -2) := by
  obtain ⟨u, d, l, r, r1, r2⟩ := i
  cases u <;> cases d <;> cases l <;> cases r <;>
    simp_all [playerFreeRoam, PLAYER_VELOCITY, truncToInt_diag_pos, truncToInt_diag_neg]

/-- Displacement of the free-roam branch with exactly one arrow key active. -/
theorem playerFreeRoam_axial (i : TickInput) (s : GameState)
    (h1 : singleArrowKey i = true) :
    (playerFreeRoam i s).gPlayerX =
      s.gPlayerX + (if i.keyRight then 4 else if i.keyLeft then -4 else 0) ∧
    (playerFreeRoam i s).gPlayerY =
      s.gPlayerY + (if i.keyDown then 4 else if i.keyUp then -4 else 0) := by
  obtain ⟨u, d, l, r, r1, r2⟩ := i
  have e1 : truncToInt 4 = 4 := truncToInt_intCast 4
  have e2 : truncToInt (-4) = -4 := truncToInt_intCast (-4)
  have e3 : truncToInt 0 = 0 := truncToInt_intCast 0
  cases u <;> cases d <;> cases l <;> cases r <;>
    simp_all [playerFreeRoam, PLAYER_VELOCITY, singleArrowKey]

theorem updatePlayer_free_roam_inside (i : TickInput) (s : GameState)
    (hg : s.gGravityOn = false)
    (hx0 : 0 ≤ (playerFreeRoam i s).gPlayerX)
    (hx1 : (playerFreeRoam i s).gPlayerX + PLAYER_WIDTH ≤ SCREEN_WIDTH)
    (hy0 : 0 ≤ (playerFreeRoam i s).gPlayerY)
    (hy1 : (playerFreeRoam i s).gPlayerY + PLAYER_HEIGHT ≤ SCREEN_HEIGHT) :
    (update_state i s).gPlayerX = (playerFreeRoam i s).gPlayerX ∧
    (update_state i s).gPlayerY = (playerFreeRoam i s).gPlayerY := by
  obtain ⟨hx, hy, -⟩ := update_state_player_fields i s
  rw [hx, hy]
  simp only [updatePlayer, hg, Bool.not_false, if_true]
  rw [playerScreenClamp_of_inside _ hx0 hx1 hy0 hy1]
  exact ⟨rfl, rfl⟩

/-- C9 (evaluation at the failing input): from the start position (50, 150), far from
every edge, a free-roam tick with Right and Down active moves the player by (2, 2): the
0.707 scaling of the 4-pixel step is truncated by the `(int)` cast, so the squared length
of the diagonal step is 8 instead of the 16 of an axial step. -/
theorem free_roam_diagonal_counterexample :
    ((update_state ⟨false, true, false, true, 0, 0⟩ (initialState none)).gPlayerX
        - (initialState none).gPlayerX = 2 ∧
     (update_state ⟨false, true, false, true, 0, 0⟩ (initialState none)).gPlayerY
        - (initialState none).gPlayerY = 2) ∧
    ¬ (((update_state ⟨false, true, false, true, 0, 0⟩ (initialState none)).gPlayerX
          - (initialState none).gPlayerX) *
       ((update_state ⟨false, true, false, true, 0, 0⟩ (initialState none)).gPlayerX
          - (initialState none).gPlayerX) +
       ((update_state ⟨false, true, false, true, 0, 0⟩ (initialState none)).gPlayerY
          - (initialState none).gPlayerY) *
       ((update_state ⟨false, true, false, true, 0, 0⟩ (initialState none)).gPlayerY
          - (initialState none).gPlayerY) = 16) := by
  decide!

/-- Displacement of free-roam ticks for a player at least 4 pixels away from every screen
edge: with exactly one horizontal and one vertical key active the player moves by 2 pixels
on each axis, `(int)(4 * 0.707) = 2`, squared length 8; with a single arrow key active it
moves by 4 pixels on that axis, squared length 16. -/
theorem free_roam_diagonal_displacement (i : TickInput) (s : GameState)
    (hg : s.gGravityOn = false)
    (hx : 4 ≤ s.gPlayerX ∧ s.gPlayerX ≤ 572) (hy : 4 ≤ s.gPlayerY ∧ s.gPlayerY ≤ 412)
    (hh : i.keyLeft ≠ i.keyRight) (hv : i.keyUp ≠ i.keyDown) :
    ((update_state i s).gPlayerX - s.gPlayerX = (if i.keyRight then 2 else -2) ∧
     (update_state i s).gPlayerY - s.gPlayerY = (if i.keyDown then 2 else -2) ∧
     ((update_state i s).gPlayerX - s.gPlayerX) * ((update_state i s).gPlayerX - s.gPlayerX) +
       ((update_state i s).gPlayerY - s.gPlayerY) * ((update_state i s).gPlayerY - s.gPlayerY)
       = 8) ∧
    (∀ j : TickInput, singleArrowKey j = true →
      ((update_state j s).gPlayerX - s.gPlayerX) * ((update_state j s).gPlayerX - s.gPlayerX) +
        ((update_state j s).gPlayerY - s.gPlayerY) * ((update_state j s).gPlayerY - s.gPlayerY)
        = 16) := by
  constructor
  · obtain ⟨dx, dy⟩ := playerFreeRoam_diagonal i s hh hv
    obtain ⟨ex, ey⟩ := updatePlayer_free_roam_inside i s hg
      (by rw [dx]; split_ifs <;> omega)
      (by rw [dx]; simp only [PLAYER_WIDTH, SCREEN_WIDTH]; split_ifs <;> omega)
      (by rw [dy]; split_ifs <;> omega)
      (by rw [dy]; simp only [PLAYER_HEIGHT, SCREEN_HEIGHT]; split_ifs <;> omega)
    rw [ex, ey, dx, dy]
    split_ifs <;> simp
  · intro j hj
    obtain ⟨dx, dy⟩ := playerFreeRoam_axial j s hj
    obtain ⟨ex, ey⟩ := updatePlayer_free_roam_inside j s hg
      (by rw [dx]; split_ifs <;> omega)
      (by rw [dx]; simp only [PLAYER_WIDTH, SCREEN_WIDTH]; split_ifs <;> omega)
      (by rw [dy]; split_ifs <;> omega)
      (by rw [dy]; simp only [PLAYER_HEIGHT, SCREEN_HEIGHT]; split_ifs <;> omega)
    rw [ex, ey, dx, dy]
    obtain ⟨u, d, l, r, r1, r2⟩ := j
    cases u <;> cases d <;> cases l <;> cases r <;> simp_all [singleArrowKey]

theorem free_roam_diagonal_displacement_witness :
    ((update_state ⟨true, false, true, false, 0, 0⟩ (initialState none)).gPlayerX
        - (initialState none).gPlayerX = -2 ∧
     (update_state ⟨true, false, true, false, 0, 0⟩ (initialState none)).gPlayerY
        - (initialState none).gPlayerY = -2) ∧
    ((update_state ⟨false, false, false, true, 0, 0⟩ (initialState none)).gPlayerX
        - (initialState none).gPlayerX) *
      ((update_state ⟨false, false, false, true, 0, 0⟩ (initialState none)).gPlayerX
        - (initialState none).gPlayerX) +
      ((update_state ⟨false, false, false, true, 0, 0⟩ (initialState none)).gPlayerY
        - (initialState none).gPlayerY) *
      ((update_state ⟨false, false, false, true, 0, 0⟩ (initialState none)).gPlayerY
        - (initialState none).gPlayerY) = 16 :=
  have h := free_roam_diagonal_displacement ⟨true, false, true, false, 0, 0⟩ (initialState none)
    rfl (by decide) (by decide) (by decide) (by decide)
  ⟨⟨h.1.1, h.1.2.1⟩, h.2 ⟨false, false, false, true, 0, 0⟩ rfl⟩

/-! ## Jumping -/

theorem platformerHorizontal_vertical (i : TickInput) (s : GameState) :
    (platformerHorizontal i s).gPlayerY = s.gPlayerY ∧
    (platformerHorizontal i s).gPlayerVelY = s.gPlayerVelY ∧
    (platformerHorizontal i s).gIsOnGround = s.gIsOnGround := by
  simp only [platformerHorizontal]
  split_ifs <;> simp only [and_self]

theorem platformerPlatform_of_rising (s : GameState)
    (hv : s.gPlayerVelY < 0) (hgr : s.gIsOnGround = false) : platformerPlatform s = s := by
  simp only [platformerPlatform, ge_iff_le, not_le.mpr hv, if_false, hgr, Bool.false_eq_true]
  split_ifs <;> rfl

theorem truncToInt_jump : truncToInt (JUMP_VELOCITY + PLATFORM_GRAVITY) = -11 := by
  norm_num [truncToInt, JUMP_VELOCITY, PLATFORM_GRAVITY, Int.ceil_eq_iff]

/-- State of the platformer branch before the floor check, in a tick that jumps. -/
theorem platformerBeforeFloor_jump (i : TickInput) (s : GameState)
    (hgr : s.gIsOnGround = true) (hup : i.keyUp = true) :
    (platformerBeforeFloor i s).gPlayerVelY = JUMP_VELOCITY + PLATFORM_GRAVITY ∧
    (platformerBeforeFloor i s).gIsOnGround = false ∧
    (platformerBeforeFloor i s).gPlayerY = s.gPlayerY - 11 := by
  obtain ⟨hy, -, hg⟩ := platformerHorizontal_vertical i s
  have hj : platformerJump i (platformerHorizontal i s) =
      { platformerHorizontal i s with gPlayerVelY := JUMP_VELOCITY, gIsOnGround := false } := by
    simp [platformerJump, hup, hg, hgr]
  have hv : (JUMP_VELOCITY + PLATFORM_GRAVITY : ℚ) < 0 := by
    norm_num [JUMP_VELOCITY, PLATFORM_GRAVITY]
  unfold platformerBeforeFloor
  rw [hj, platformerPlatform_of_rising _ hv rfl]
  refine ⟨rfl, rfl, ?_⟩
  show (platformerHorizontal i s).gPlayerY + truncToInt (JUMP_VELOCITY + PLATFORM_GRAVITY) = _
  rw [truncToInt_jump, hy]
  rfl

/-- C10: in platformer mode without loss, with `onGround` true and any vertical velocity,
if the bottom edge after the 11-pixel rise is still above the screen bottom, one tick with
Up active ends with `velY = JUMP_VELOCITY + PLATFORM_GRAVITY = -11.2` and `onGround`
false (the player has moved up by 11 pixels). -/
theorem update_state_jump (i : TickInput) (s : GameState)
    (hg : s.gGravityOn = true) (hl : s.gPlatformLoss = false)
    (hgr : s.gIsOnGround = true) (hup : i.keyUp = true)
    (hy : s.gPlayerY - 11 + PLAYER_HEIGHT < SCREEN_HEIGHT) :
    (update_state i s).gPlayerVelY = JUMP_VELOCITY + PLATFORM_GRAVITY ∧
    JUMP_VELOCITY + PLATFORM_GRAVITY = (-11.2 : ℚ) ∧
    (update_state i s).gIsOnGround = false ∧
    (update_state i s).gPlayerY = s.gPlayerY - 11 := by
  obtain ⟨-, ey, -, -, ev, egr⟩ := update_state_player_fields i s
  obtain ⟨-, -, cv, cg⟩ := playerScreenClamp_flags (playerPlatformer i s)
  obtain ⟨jv, jg, jy⟩ := platformerBeforeFloor_jump i s hgr hup
  have hgp : (playerPlatformer i s).gGravityOn = true := by
    rw [playerPlatformer_gGravityOn, hg]
  have hp : playerPlatformer i s = platformerBeforeFloor i s := by
    have hnf : ¬ (platformerBeforeFloor i s).gPlayerY + PLAYER_HEIGHT ≥ SCREEN_HEIGHT := by
      rw [jy]
      exact not_le.mpr hy
    simp only [playerPlatformer, hl, Bool.not_false, if_true]
    rw [platformerFloor, if_neg hnf]
  rw [ev, egr, ey, updatePlayer_of_gravity i s hg, cv, cg,
    playerScreenClamp_gPlayerY_of_gravity _ hgp, hp]
  refine ⟨jv, ?_, jg, jy⟩
  norm_num [JUMP_VELOCITY, PLATFORM_GRAVITY]

theorem update_state_jump_witness :
    ({ initialState none with gGravityOn := true, gIsOnGround := true, gPlayerX := 288,
                              gPlayerY := 49 } : GameState).gPlayerY - 11 + PLAYER_HEIGHT
      < SCREEN_HEIGHT ∧
    (update_state ⟨true, false, false, false, 0, 0⟩
      { initialState none with gGravityOn := true, gIsOnGround := true, gPlayerX := 288,
                               gPlayerY := 49 }).gPlayerVelY = (-11.2 : ℚ) ∧
    (update_state ⟨true, false, false, false, 0, 0⟩
      { initialState none with gGravityOn := true, gIsOnGround := true, gPlayerX := 288,
                               gPlayerY := 49 }).gIsOnGround = false :=
  have h := update_state_jump ⟨true, false, false, false, 0, 0⟩
    { initialState none with gGravityOn := true, gIsOnGround := true, gPlayerX := 288,
                             gPlayerY := 49 } rfl rfl rfl rfl (by decide)
  ⟨by decide, h.1.trans h.2.1, h.2.2.1⟩

/-! ## Ball position after a tick -/

theorem ballClamp_on_screen (s : GameState) : BallOnScreen (ballClampY (ballClampX s)) := by
  simp only [BallOnScreen, ballClampY, ballClampX, SCREEN_WIDTH, BALL_WIDTH, SCREEN_HEIGHT,
    BALL_HEIGHT]
  split_ifs <;> refine ⟨⟨?_, ?_⟩, ?_, ?_⟩ <;> (try norm_num at *) <;> (try linarith)

theorem ballWalls_on_screen (s : GameState) : BallOnScreen (ballWallsY (ballWallsX s)) := by
  simp only [BallOnScreen, ballWallsY, ballWallsX, SCREEN_WIDTH, BALL_WIDTH, SCREEN_HEIGHT,
    BALL_HEIGHT]
  split_ifs <;> refine ⟨⟨?_, ?_⟩, ?_, ?_⟩ <;> (try norm_num at *) <;> (try linarith)

/-- The grabbed path and the wall step keep the ball on screen: after a tick the ball is
on screen whenever the ball is grabbed or the player-collision step changes nothing. -/
theorem update_state_ball_on_screen_of_no_push (i : TickInput) (s : GameState)
    (h : s.gBallGrabbed = true ∨
      ballPlayerCollision (ballWallsY (ballWallsX (ballIntegrate (updatePlayer i s)))) =
        ballWallsY (ballWallsX (ballIntegrate (updatePlayer i s)))) :
    BallOnScreen (update_state i s) := by
  have hf := targetScoring_frame i (update_ball_physics (updatePlayer i s))
  have hgr : (updatePlayer i s).gBallGrabbed = s.gBallGrabbed := by
    have h2 := updatePlayer_frame i s
    unfold SameExceptPlayer at h2
    rw [h2]
  have hb : BallOnScreen (update_ball_physics (updatePlayer i s)) := by
    unfold update_ball_physics
    rw [hgr]
    cases hg : s.gBallGrabbed
    · rcases h with h | h
      · rw [hg] at h
        exact absurd h (by decide)
      · simp only [Bool.false_eq_true, if_false]
        rw [h]
        exact ballWalls_on_screen _
    · simp only [if_true]
      exact ballClamp_on_screen _
  unfold SameExceptTarget at hf
  unfold update_state BallOnScreen
  rw [hf]
  exact hb

/-- C2 (evaluation at the failing input): `pushOutState` is reached from the initial state,
has the ball at (610, 310) at rest inside the screen and the player at (576, 290); one
further idle tick resolves the ball-player overlap by setting `ball.x = player.x + 64 =
640`, which exceeds `SCREEN_WIDTH - BALL_WIDTH = 616`. -/
theorem update_state_pushes_ball_off_screen :
    (pushOutState.gBallX = 610 ∧ pushOutState.gBallY = 310 ∧
     pushOutState.gBallVelX = 0 ∧ pushOutState.gBallVelY = 0 ∧
     pushOutState.gBallGrabbed = false ∧ pushOutState.gGravityOn = false ∧
     pushOutState.gPlayerX = 576 ∧ pushOutState.gPlayerY = 290) ∧
    (update_state ⟨false, false, false, false, 0, 0⟩ pushOutState).gBallX = 640 ∧
    ¬ ((update_state ⟨false, false, false, false, 0, 0⟩ pushOutState).gBallX
        ≤ ((SCREEN_WIDTH - BALL_WIDTH : Int) : ℚ)) := by
  decide!

/-! ## Wall bounce -/

theorem ballWallsY_horizontal (s : GameState) :
    (ballWallsY s).gBallX = s.gBallX ∧ (ballWallsY s).gBallVelX = s.gBallVelX := by
  simp only [ballWallsY]
  split_ifs <;> simp only [and_self]

theorem ballWallsX_vertical (s : GameState) :
    (ballWallsX s).gBallY = s.gBallY ∧ (ballWallsX s).gBallVelY = s.gBallVelY := by
  simp only [ballWallsX]
  split_ifs <;> simp only [and_self]

theorem ballWallsX_left (s : GameState) (h : s.gBallX < 0) :
    (ballWallsX s).gBallX = 0 ∧ (ballWallsX s).gBallVelX = (-0.8 : ℚ) * s.gBallVelX := by
  simp only [ballWallsX, h, if_true, BOUNCE_FACTOR, true_and]
  ring

theorem ballWallsX_right (s : GameState) (h : s.gBallX + BALL_WIDTH > SCREEN_WIDTH) :
    (ballWallsX s).gBallX = 616 ∧ (ballWallsX s).gBallVelX = (-0.8 : ℚ) * s.gBallVelX := by
  have h0 : ¬ s.gBallX < 0 := by
    simp only [BALL_WIDTH, SCREEN_WIDTH] at h
    push_cast at h
    linarith
  rw [ballWallsX, if_neg h0, if_pos h]
  simp only [BOUNCE_FACTOR, SCREEN_WIDTH, BALL_WIDTH]
  constructor
  · norm_num
  · ring

theorem ballWallsY_top (s : GameState) (h : s.gBallY < 0) :
    (ballWallsY s).gBallY = 0 ∧ (ballWallsY s).gBallVelY = (-0.8 : ℚ) * s.gBallVelY := by
  simp only [ballWallsY, h, if_true, BOUNCE_FACTOR, true_and]
  ring

theorem ballWallsY_floor (s : GameState) (h : s.gBallY + BALL_HEIGHT > SCREEN_HEIGHT) :
    (ballWallsY s).gBallY = 455 ∧
    (ballWallsY s).gBallVelY =
      if |(-0.8 : ℚ) * s.gBallVelY| < 0.5 then 0 else (-0.8 : ℚ) * s.gBallVelY := by
  have h0 : ¬ s.gBallY < 0 := by
    simp only [BALL_HEIGHT, SCREEN_HEIGHT] at h
    push_cast at h
    linarith
  have e : s.gBallVelY * -BOUNCE_FACTOR = (-0.8 : ℚ) * s.gBallVelY := by
    simp only [BOUNCE_FACTOR]
    ring
  have g : FREE_ROAM_GRAVITY = (0.5 : ℚ) := by
    norm_num [FREE_ROAM_GRAVITY]
  rw [ballWallsY, if_neg h0, if_pos h]
  simp only [e, g, SCREEN_HEIGHT, BALL_HEIGHT]
  constructor
  · norm_num
  · trivial

theorem update_ball_physics_of_no_collision (s : GameState) (hgr : s.gBallGrabbed = false)
    (hnc : s.gPlatformLoss = true ∨
      check_collision (playerBoxOf (ballAfterWalls s)) (ballBoxOf (ballAfterWalls s)) = false) :
    update_ball_physics s = ballAfterWalls s := by
  have hl : (ballAfterWalls s).gPlatformLoss = s.gPlatformLoss := by
    have h := sameExceptBall_trans (sameExceptBall_trans (ballWallsY_frame _)
      (ballWallsX_frame _)) (ballIntegrate_frame s)
    unfold SameExceptBall at h
    unfold ballAfterWalls
    rw [h]
  simp only [update_ball_physics, hgr, Bool.false_eq_true, if_false]
  show ballPlayerCollision (ballAfterWalls s) = ballAfterWalls s
  simp only [ballPlayerCollision, hl]
  rcases hnc with h | h
  · simp [h]
  · simp [h]

/-- C11: for a non-grabbed ball in a tick that resolves no player collision, crossing a
screen edge after gravity and integration puts the ball exactly on that wall (0, 616, 0,
455) with the velocity on that axis equal to -0.8 times the velocity at impact, except
that on the floor a bounced velocity of magnitude below 0.5 becomes 0; a ball resting on
the floor (y = 455, velY = 0) stays at y = 455 with velY = 0. -/
theorem update_ball_physics_wall_bounce (s : GameState) (hgr : s.gBallGrabbed = false)
    (hnc : s.gPlatformLoss = true ∨
      check_collision (playerBoxOf (ballAfterWalls s)) (ballBoxOf (ballAfterWalls s)) = false) :
    ((ballIntegrate s).gBallX < 0 →
      (update_ball_physics s).gBallX = 0 ∧
      (update_ball_physics s).gBallVelX = (-0.8 : ℚ) * (ballIntegrate s).gBallVelX) ∧
    ((ballIntegrate s).gBallX + BALL_WIDTH > SCREEN_WIDTH →
      (update_ball_physics s).gBallX = 616 ∧
      (update_ball_physics s).gBallVelX = (-0.8 : ℚ) * (ballIntegrate s).gBallVelX) ∧
    ((ballIntegrate s).gBallY < 0 →
      (update_ball_physics s).gBallY = 0 ∧
      (update_ball_physics s).gBallVelY = (-0.8 : ℚ) * (ballIntegrate s).gBallVelY) ∧
    ((ballIntegrate s).gBallY + BALL_HEIGHT > SCREEN_HEIGHT →
      (update_ball_physics s).gBallY = 455 ∧
      (update_ball_physics s).gBallVelY =
        if |(-0.8 : ℚ) * (ballIntegrate s).gBallVelY| < 0.5 then 0
        else (-0.8 : ℚ) * (ballIntegrate s).gBallVelY) ∧
    (s.gBallY = 455 → s.gBallVelY = 0 →
      (update_ball_physics s).gBallY = 455 ∧ (update_ball_physics s).gBallVelY = 0) := by
  rw [update_ball_physics_of_no_collision s hgr hnc]
  unfold ballAfterWalls
  obtain ⟨hx, hvx⟩ := ballWallsY_horizontal (ballWallsX (ballIntegrate s))
  obtain ⟨hy, hvy⟩ := ballWallsX_vertical (ballIntegrate s)
  have hfloor : ∀ h : (ballIntegrate s).gBallY + BALL_HEIGHT > SCREEN_HEIGHT,
      (ballWallsY (ballWallsX (ballIntegrate s))).gBallY = 455 ∧
      (ballWallsY (ballWallsX (ballIntegrate s))).gBallVelY =
        if |(-0.8 : ℚ) * (ballIntegrate s).gBallVelY| < 0.5 then 0
        else (-0.8 : ℚ) * (ballIntegrate s).gBallVelY := by
    intro h
    have := ballWallsY_floor (ballWallsX (ballIntegrate s)) (by rw [hy]; exact h)
    rwa [hvy] at this
  refine ⟨?_, ?_, ?_, hfloor, ?_⟩
  · intro h
    rw [hx, hvx]
    exact ballWallsX_left _ h
  · intro h
    rw [hx, hvx]
    exact ballWallsX_right _ h
  · intro h
    have := ballWallsY_top (ballWallsX (ballIntegrate s)) (by rw [hy]; exact h)
    rwa [hvy] at this
  · intro h1 h2
    have ev : (ballIntegrate s).gBallVelY = 1 / 2 := by
      simp only [ballIntegrate, h2, FREE_ROAM_GRAVITY]
      norm_num
    have ey : (ballIntegrate s).gBallY = 455 + 1 / 2 := by
      simp only [ballIntegrate, h1, h2, FREE_ROAM_GRAVITY]
      norm_num
    obtain ⟨r1, r2⟩ := hfloor (by
      rw [ey]
      simp only [BALL_HEIGHT, SCREEN_HEIGHT]
      norm_num)
    refine ⟨r1, ?_⟩
    rw [r2, ev, if_pos]
    rw [abs_lt]
    constructor <;> norm_num

theorem update_ball_physics_wall_bounce_witness :
    (check_collision
        (playerBoxOf (ballAfterWalls { initialState none with gBallX := 300, gBallY := 455,
                                                               gBallVelX := 0 }))
        (ballBoxOf (ballAfterWalls { initialState none with gBallX := 300, gBallY := 455,
                                                             gBallVelX := 0 })) = false) ∧
    (update_ball_physics { initialState none with gBallX := 300, gBallY := 455,
                                                  gBallVelX := 0 }).gBallY = 455 ∧
    (update_ball_physics { initialState none with gBallX := 300, gBallY := 455,
                                                  gBallVelX := 0 }).gBallVelY = 0 :=
  have hnc : check_collision
        (playerBoxOf (ballAfterWalls { initialState none with gBallX := 300, gBallY := 455,
                                                               gBallVelX := 0 }))
        (ballBoxOf (ballAfterWalls { initialState none with gBallX := 300, gBallY := 455,
                                                             gBallVelX := 0 })) = false := by
    decide!
  ⟨hnc, (update_ball_physics_wall_bounce
    { initialState none with gBallX := 300, gBallY := 455, gBallVelX := 0 } rfl
    (Or.inr hnc)).2.2.2.2 rfl rfl⟩

/-! ## Player collision response -/

theorem copysign_nonneg (x : ℚ) (d : Int) (h : 0 ≤ d) : 0 ≤ copysign x d := by
  simp only [copysign, not_lt.mpr h, if_false]
  exact abs_nonneg x

theorem copysign_nonpos (x : ℚ) (d : Int) (h : d < 0) : copysign x d ≤ 0 := by
  simp only [copysign, h, if_true]
  exact neg_nonpos.mpr (abs_nonneg x)

/-- The response of the player-collision step when it resolves along the x axis. -/
theorem ballPlayerCollision_x_axis (s : GameState) (hl : s.gPlatformLoss = false)
    (hc : check_collision (playerBoxOf s) (ballBoxOf s) = true)
    (hd : |ballPlayerDx s| > |ballPlayerDy s|) :
    ((ballPlayerCollision s).gBallX =
      if ballPlayerDx s > 0 then ((s.gPlayerX + PLAYER_WIDTH : Int) : ℚ)
      else ((s.gPlayerX - BALL_WIDTH : Int) : ℚ)) ∧
    (ballPlayerDx s > 0 → 0 ≤ (ballPlayerCollision s).gBallVelX) ∧
    (¬ ballPlayerDx s > 0 → (ballPlayerCollision s).gBallVelX ≤ 0) ∧
    (ballPlayerCollision s).gBallY = s.gBallY ∧
    (ballPlayerCollision s).gBallVelY = s.gBallVelY := by
  have hd2 : |truncToInt s.gBallX + Int.tdiv BALL_WIDTH 2 - (s.gPlayerX + Int.tdiv PLAYER_WIDTH 2)|
      > |truncToInt s.gBallY + Int.tdiv BALL_HEIGHT 2
          - (s.gPlayerY + Int.tdiv PLAYER_HEIGHT 2)| := hd
  have hne : ballPlayerDx s ≠ 0 := by
    intro h0
    rw [h0] at hd
    simp only [abs_zero, gt_iff_lt] at hd
    exact absurd hd (not_lt.mpr (abs_nonneg _))
  have e : ballPlayerCollision s =
      { s with
        gBallVelX := copysign (s.gBallVelX * -BOUNCE_FACTOR) (ballPlayerDx s)
        gBallX := if ballPlayerDx s > 0 then ((s.gPlayerX + PLAYER_WIDTH : Int) : ℚ)
                  else ((s.gPlayerX - BALL_WIDTH : Int) : ℚ) } := by
    simp only [ballPlayerCollision, hl, Bool.not_false, if_true, hc, hd2]
    rfl
  rw [e]
  refine ⟨rfl, fun h => copysign_nonneg _ _ (le_of_lt h), fun h => ?_, rfl, rfl⟩
  exact copysign_nonpos _ _ (lt_of_le_of_ne (not_lt.mp h) hne)

/-- The response of the player-collision step when it resolves along the y axis with a
non-zero vertical displacement. -/
theorem ballPlayerCollision_y_axis (s : GameState) (hl : s.gPlatformLoss = false)
    (hc : check_collision (playerBoxOf s) (ballBoxOf s) = true)
    (hd : ¬ |ballPlayerDx s| > |ballPlayerDy s|) :
    ((ballPlayerCollision s).gBallY =
      if ballPlayerDy s > 0 then ((s.gPlayerY + PLAYER_HEIGHT : Int) : ℚ)
      else ((s.gPlayerY - BALL_HEIGHT : Int) : ℚ)) ∧
    (ballPlayerDy s > 0 → 0 ≤ (ballPlayerCollision s).gBallVelY) ∧
    (ballPlayerDy s < 0 → (ballPlayerCollision s).gBallVelY ≤ 0) ∧
    (ballPlayerDy s = 0 →
      (ballPlayerCollision s).gBallVelY = |s.gBallVelY * -BOUNCE_FACTOR|) ∧
    (ballPlayerCollision s).gBallX = s.gBallX ∧
    (ballPlayerCollision s).gBallVelX = s.gBallVelX := by
  have hd2 : ¬ |truncToInt s.gBallX + Int.tdiv BALL_WIDTH 2
        - (s.gPlayerX + Int.tdiv PLAYER_WIDTH 2)|
      > |truncToInt s.gBallY + Int.tdiv BALL_HEIGHT 2
          - (s.gPlayerY + Int.tdiv PLAYER_HEIGHT 2)| := hd
  have e : ballPlayerCollision s =
      { s with
        gBallVelY := copysign (s.gBallVelY * -BOUNCE_FACTOR) (ballPlayerDy s)
        gBallY := if ballPlayerDy s > 0 then ((s.gPlayerY + PLAYER_HEIGHT : Int) : ℚ)
                  else ((s.gPlayerY - BALL_HEIGHT : Int) : ℚ) } := by
    simp only [ballPlayerCollision, hl, Bool.not_false, if_true, hc, hd2, if_false]
    rfl
  rw [e]
  refine ⟨rfl, fun h => copysign_nonneg _ _ (le_of_lt h), fun h => copysign_nonpos _ _ h,
    fun h => ?_, rfl, rfl⟩
  show copysign (s.gBallVelY * -BOUNCE_FACTOR) (ballPlayerDy s) = _
  rw [h]
  simp only [copysign, lt_self_iff_false, if_false]

/-- C12 (evaluation at the failing input): `dropOnPlayerState` is reached from the initial
state and has the ball at rest at (70, 170), centred on the player at (50, 150); in the
next idle tick the collision is resolved along the y axis with zero displacement: the ball
is snapped above the player (`ball.y = player.y - 25 = 125`) while its new vertical
velocity is `+0.4`, pointing down toward the player instead of non-positive. -/
theorem update_state_centred_ball_pushed_wrong_way :
    (dropOnPlayerState.gBallX = 70 ∧ dropOnPlayerState.gBallY = 170 ∧
     dropOnPlayerState.gBallVelX = 0 ∧ dropOnPlayerState.gBallVelY = 0 ∧
     dropOnPlayerState.gBallGrabbed = false ∧ dropOnPlayerState.gPlatformLoss = false ∧
     dropOnPlayerState.gPlayerX = 50 ∧ dropOnPlayerState.gPlayerY = 150) ∧
    (ballPlayerDx (ballAfterWalls dropOnPlayerState) = 0 ∧
     ballPlayerDy (ballAfterWalls dropOnPlayerState) = 0 ∧
     check_collision (playerBoxOf (ballAfterWalls dropOnPlayerState))
       (ballBoxOf (ballAfterWalls dropOnPlayerState)) = true) ∧
    (update_state ⟨false, false, false, false, 0, 0⟩ dropOnPlayerState).gPlayerY = 150 ∧
    (update_state ⟨false, false, false, false, 0, 0⟩ dropOnPlayerState).gBallY = 125 ∧
    (update_state ⟨false, false, false, false, 0, 0⟩ dropOnPlayerState).gBallVelY = 0.4 ∧
    ¬ ((update_state ⟨false, false, false, false, 0, 0⟩ dropOnPlayerState).gBallVelY ≤ 0) := by
  decide!

/-! ## Platform check -/

theorem toSint16_of_range (n : Int) (h1 : -32768 ≤ n) (h2 : n ≤ 32767) : toSint16 n = n := by
  unfold toSint16
  omega

theorem platformBox_eq : platformBox = ⟨117, 113, 406, 317⟩ := by decide

theorem playerBoxOf_eq (s : GameState) :
    playerBoxOf s = ⟨toSint16 s.gPlayerX, toSint16 s.gPlayerY, 64, 64⟩ := rfl

/-- A player whose bottom edge is at or above the platform top does not collide with it. -/
theorem check_collision_platform_above (s : GameState)
    (h1 : -32768 ≤ s.gPlayerY) (h2 : s.gPlayerY + 64 ≤ 113) :
    check_collision (playerBoxOf s) platformBox = false := by
  rw [Bool.eq_false_iff]
  intro h
  rw [check_collision_eq_true_iff, playerBoxOf_eq, platformBox_eq,
    toSint16_of_range s.gPlayerY h1 (by omega)] at h
  simp only at h
  omega

/-- Check 4a when the landing condition fails: only `onGround` is cleared. -/
theorem platformerPlatform_miss (s : GameState)
    (h : check_collision (playerBoxOf s) platformBox = false ∨
      ¬ (s.gPlayerY + PLAYER_HEIGHT < platformBox.y + PLAYER_VELOCITY)) :
    platformerPlatform s = { s with gIsOnGround := false } := by
  have hc : (check_collision (playerBoxOf s) platformBox &&
      decide (s.gPlayerY + PLAYER_HEIGHT < platformBox.y + PLAYER_VELOCITY)) = false := by
    rcases h with h | h
    · rw [h]
      rfl
    · rw [decide_eq_false h, Bool.and_false]
  simp only [platformerPlatform, hc, Bool.false_eq_true, if_false]
  split_ifs with hg
  · rfl
  · cases s
    simp_all

/-- Check 4a when the player overlaps the platform within the landing band and is not
rising: the player is snapped onto the platform. -/
theorem platformerPlatform_land (s : GameState)
    (hx : 53 < s.gPlayerX ∧ s.gPlayerX < 523) (hy : 49 < s.gPlayerY ∧ s.gPlayerY < 53)
    (hv : 0 ≤ s.gPlayerVelY) :
    platformerPlatform s = { s with gPlayerY := 49, gPlayerVelY := 0, gIsOnGround := true } := by
  have hcc : check_collision (playerBoxOf s) platformBox = true := by
    rw [check_collision_eq_true_iff, playerBoxOf_eq, platformBox_eq,
      toSint16_of_range s.gPlayerY (by omega) (by omega),
      toSint16_of_range s.gPlayerX (by omega) (by omega)]
    simp only
    omega
  have hb : s.gPlayerY + PLAYER_HEIGHT < platformBox.y + PLAYER_VELOCITY := by
    rw [platformBox_eq]
    simp only [PLAYER_HEIGHT, PLAYER_VELOCITY]
    omega
  simp only [platformerPlatform, hcc, hb, decide_True, Bool.and_self, if_true, ge_iff_le, hv]
  rw [platformBox_eq]
  simp only [PLAYER_HEIGHT]
  norm_num

theorem platformerFloor_above (s : GameState) (h : s.gPlayerY + PLAYER_HEIGHT < SCREEN_HEIGHT) :
    platformerFloor s = s := by
  rw [platformerFloor, if_neg (not_le.mpr h)]

/-! ## Retry click -/

theorem clickGrab_player (x y : Nat) (s : GameState) :
    (clickGrab x y s).gPlayerX = s.gPlayerX ∧ (clickGrab x y s).gPlayerY = s.gPlayerY ∧
    (clickGrab x y s).gPlayerVelY = s.gPlayerVelY ∧
    (clickGrab x y s).gIsOnGround = s.gIsOnGround := by
  simp only [clickGrab]
  split_ifs <;> simp only [and_self]

/-- The state produced by a left click on the retry button in the loss state. -/
theorem handle_event_retry_click (e : SDL_Event) (r : Bool) (s : GameState)
    (hl : s.gPlatformLoss = true) (he : isRetryClick e = true) :
    (handle_event e r s).2.gPlatformLoss = false ∧
    (handle_event e r s).2.gPlayerX = 288 ∧
    (handle_event e r s).2.gPlayerY = 39 ∧
    (handle_event e r s).2.gPlayerVelY = 0 ∧
    (handle_event e r s).2.gIsOnGround = false ∧
    (handle_event e r s).2.gGravityOn = s.gGravityOn := by
  cases e with
  | SDL_MOUSEBUTTONDOWN button x y =>
    simp only [isRetryClick, Bool.and_eq_true, decide_eq_true_eq] at he
    obtain ⟨hb, hin⟩ := he
    obtain ⟨p1, p2, p3, p4⟩ := clickGrab_player x y
      (clickRetry x y (clickToggle x y { s with gIsMouseDown := true }))
    obtain ⟨g1, g2⟩ := clickGrab_flags x y
      (clickRetry x y (clickToggle x y { s with gIsMouseDown := true }))
    simp only [handle_event, hb, if_true]
    rw [p1, p2, p3, p4, g1, g2, clickToggle_of_loss x y { s with gIsMouseDown := true } hl]
    have hl2 : ({ s with gIsMouseDown := true } : GameState).gPlatformLoss = true := hl
    rw [clickRetry, if_pos hl2, if_pos hin]
    refine ⟨rfl, ?_, ?_, rfl, rfl, rfl⟩
    · show PLATFORM_X + Int.tdiv PLATFORM_WIDTH 2 - Int.tdiv PLAYER_WIDTH 2 = 288
      decide
    · show PLATFORM_Y - PLAYER_HEIGHT - 10 = 39
      decide
  | _ => simp [isRetryClick] at he

/-! ## Standing on the platform -/

theorem playerScreenClamp_over_platform (s : GameState) (hg : s.gGravityOn = true)
    (hx : OverPlatform s) : playerScreenClamp s = s := by
  obtain ⟨h1, h2⟩ := hx
  have e1 : PLATFORM_X - PLAYER_WIDTH = 53 := by decide
  have e2 : PLATFORM_X + PLATFORM_WIDTH = 523 := by decide
  rw [e1] at h1
  rw [e2] at h2
  have a : ¬ s.gPlayerX < 0 := by omega
  have b : ¬ s.gPlayerX + PLAYER_WIDTH > SCREEN_WIDTH := by
    simp only [PLAYER_WIDTH, SCREEN_WIDTH]
    omega
  simp [playerScreenClamp, a, b, hg]

/-- The player part of a platformer tick without loss, horizontal key or jump. -/
theorem updatePlayer_vertical_only (i : TickInput) (s : GameState)
    (hg : s.gGravityOn = true) (hl : s.gPlatformLoss = false)
    (hkl : i.keyLeft = false) (hkr : i.keyRight = false)
    (hj : (i.keyUp && s.gIsOnGround) = false) :
    updatePlayer i s =
      playerScreenClamp (platformerFloor (platformerPlatform (platformerGravity s))) := by
  simp [updatePlayer, playerPlatformer, platformerBeforeFloor, platformerHorizontal,
    platformerJump, hg, hl, hkl, hkr, hj]

theorem truncToInt_gravity_once : truncToInt (0 + PLATFORM_GRAVITY) = 0 := by
  norm_num [truncToInt, PLATFORM_GRAVITY, Int.floor_eq_iff]

theorem truncToInt_gravity_twice : truncToInt (PLATFORM_GRAVITY + PLATFORM_GRAVITY) = 1 := by
  norm_num [truncToInt, PLATFORM_GRAVITY, Int.floor_eq_iff]

/-- An idle tick on a standing player clears `onGround` without moving the player. -/
theorem updatePlayer_standing (i : TickInput) (s : GameState)
    (hst : Standing s) (hk : noKeys i = true) :
    updatePlayer i s = { platformerGravity s with gIsOnGround := false } ∧
    (platformerGravity s).gPlayerY = s.gPlayerY ∧
    (platformerGravity s).gPlayerVelY = PLATFORM_GRAVITY := by
  obtain ⟨hg, hl, -, hv, hy, hx⟩ := hst
  simp only [noKeys, Bool.and_eq_true, Bool.not_eq_true'] at hk
  obtain ⟨⟨⟨hku, -⟩, hkl⟩, hkr⟩ := hk
  have hy49 : s.gPlayerY = 49 := by
    have e : PLATFORM_Y = 113 := by decide
    rw [e] at hy
    simp only [PLAYER_HEIGHT] at hy
    omega
  have gy : (platformerGravity s).gPlayerY = s.gPlayerY := by
    show s.gPlayerY + truncToInt (s.gPlayerVelY + PLATFORM_GRAVITY) = s.gPlayerY
    rw [hv, truncToInt_gravity_once]
    omega
  have gv : (platformerGravity s).gPlayerVelY = PLATFORM_GRAVITY := by
    show s.gPlayerVelY + PLATFORM_GRAVITY = PLATFORM_GRAVITY
    rw [hv, zero_add]
  have hmiss := platformerPlatform_miss (platformerGravity s)
    (Or.inl (check_collision_platform_above _ (by rw [gy, hy49]; decide)
      (by rw [gy, hy49]; decide)))
  have hfl : platformerFloor { platformerGravity s with gIsOnGround := false } =
      { platformerGravity s with gIsOnGround := false } := by
    apply platformerFloor_above
    show (platformerGravity s).gPlayerY + PLAYER_HEIGHT < SCREEN_HEIGHT
    rw [gy, hy49]
    decide
  have hcl : playerScreenClamp { platformerGravity s with gIsOnGround := false } =
      { platformerGravity s with gIsOnGround := false } :=
    playerScreenClamp_over_platform _ hg hx
  rw [updatePlayer_vertical_only i s hg hl hkl hkr (by rw [hku]; rfl), hmiss, hfl, hcl]
  exact ⟨rfl, gy, gv⟩

/-- A tick without horizontal keys on an ungrounded player at the platform top lands it
again, whether or not Up is active. -/
theorem updatePlayer_ungrounded (i : TickInput) (s : GameState)
    (hu : Ungrounded s) (hkl : i.keyLeft = false) (hkr : i.keyRight = false) :
    updatePlayer i s =
      { platformerGravity s with gPlayerY := 49, gPlayerVelY := 0, gIsOnGround := true } := by
  obtain ⟨hg, hl, hgr, hv, hy, hx⟩ := hu
  have hy49 : s.gPlayerY = 49 := by
    have e : PLATFORM_Y = 113 := by decide
    rw [e] at hy
    simp only [PLAYER_HEIGHT] at hy
    omega
  have gy : (platformerGravity s).gPlayerY = 50 := by
    show s.gPlayerY + truncToInt (s.gPlayerVelY + PLATFORM_GRAVITY) = 50
    rw [hv, truncToInt_gravity_twice, hy49]
    decide
  have gv : (platformerGravity s).gPlayerVelY = PLATFORM_GRAVITY + PLATFORM_GRAVITY := by
    show s.gPlayerVelY + PLATFORM_GRAVITY = _
    rw [hv]
  have hx2 : 53 < (platformerGravity s).gPlayerX ∧ (platformerGravity s).gPlayerX < 523 := hx
  have hland := platformerPlatform_land (platformerGravity s) hx2
    (by rw [gy]; decide) (by rw [gv]; norm_num [PLATFORM_GRAVITY])
  have hfl : platformerFloor
      { platformerGravity s with gPlayerY := 49, gPlayerVelY := 0, gIsOnGround := true } =
      { platformerGravity s with gPlayerY := 49, gPlayerVelY := 0, gIsOnGround := true } :=
    platformerFloor_above _ (show (49 : Int) + PLAYER_HEIGHT < SCREEN_HEIGHT by decide)
  have hcl : playerScreenClamp
      { platformerGravity s with gPlayerY := 49, gPlayerVelY := 0, gIsOnGround := true } =
      { platformerGravity s with gPlayerY := 49, gPlayerVelY := 0, gIsOnGround := true } :=
    playerScreenClamp_over_platform _ hg hx
  rw [updatePlayer_vertical_only i s hg hl hkl hkr (by rw [hgr, Bool.and_false]), hland, hfl,
    hcl]

theorem update_state_standing (i : TickInput) (s : GameState)
    (hst : Standing s) (hk : noKeys i = true) : Ungrounded (update_state i s) := by
  obtain ⟨ex, ey, eg, el, ev, egr⟩ := update_state_player_fields i s
  obtain ⟨hup, gy, gv⟩ := updatePlayer_standing i s hst hk
  obtain ⟨hg, hl, -, -, hy, hx⟩ := hst
  unfold Ungrounded OverPlatform
  rw [ex, ey, eg, el, ev, egr, hup]
  exact ⟨hg, hl, rfl, gv, by rw [← hy]; exact congrArg (· + PLAYER_HEIGHT) gy, hx⟩

theorem update_state_ungrounded (i : TickInput) (s : GameState)
    (hu : Ungrounded s) (hkl : i.keyLeft = false) (hkr : i.keyRight = false) :
    Standing (update_state i s) := by
  obtain ⟨ex, ey, eg, el, ev, egr⟩ := update_state_player_fields i s
  have hup := updatePlayer_ungrounded i s hu hkl hkr
  obtain ⟨hg, hl, -, -, -, hx⟩ := hu
  unfold Standing OverPlatform
  rw [ex, ey, eg, el, ev, egr, hup]
  exact ⟨hg, hl, rfl, rfl, show (49 : Int) + PLAYER_HEIGHT = PLATFORM_Y by decide, hx⟩

/-- Over idle ticks `onGround` alternates: a standing player is grounded after an even
number of ticks and an ungrounded one after an odd number. -/
theorem ticks_idle_alternates (inputs : List TickInput) :
    ∀ s : GameState, (∀ i ∈ inputs, noKeys i = true) →
      (Standing s → (ticks inputs s).gIsOnGround = decide (inputs.length % 2 = 0)) ∧
      (Ungrounded s → (ticks inputs s).gIsOnGround = decide (inputs.length % 2 = 1)) := by
  induction inputs with
  | nil =>
    intro s _
    exact ⟨fun h => h.2.2.1, fun h => h.2.2.1⟩
  | cons i rest ih =>
    intro s hk
    have hi : noKeys i = true := hk i (List.mem_cons_self _ _)
    have hrest : ∀ j ∈ rest, noKeys j = true := fun j hj => hk j (List.mem_cons_of_mem _ hj)
    have hi2 := hi
    simp only [noKeys, Bool.and_eq_true, Bool.not_eq_true'] at hi2
    obtain ⟨⟨-, hkl⟩, hkr⟩ := hi2
    rw [ticks_cons]
    constructor
    · intro hst
      rw [((ih _ hrest).2 (update_state_standing i s hst hi))]
      simp only [List.length_cons, decide_eq_decide]
      omega
    · intro hu
      rw [((ih _ hrest).1 (update_state_ungrounded i s hu hkl hkr))]
      simp only [List.length_cons, decide_eq_decide]
      omega

/-- C14: for a player standing on the platform (platformer mode, no loss, `onGround` true,
`velY = 0`, bottom edge on the platform top, horizontally over the platform), an idle tick
leaves `player.y` unchanged but ends with `onGround` false and `velY = 0.8`; the following
tick without horizontal keys lands the player again (`player.y = PLATFORM_Y - 64`,
`velY = 0`, `onGround` true) and does not jump even with Up active; over idle ticks
`onGround` is true exactly after an even number of ticks. -/
theorem standing_on_platform_alternates (s : GameState)
    (hg : s.gGravityOn = true) (hl : s.gPlatformLoss = false) (hgr : s.gIsOnGround = true)
    (hv : s.gPlayerVelY = 0) (hy : s.gPlayerY + PLAYER_HEIGHT = PLATFORM_Y)
    (hx : PLATFORM_X - PLAYER_WIDTH < s.gPlayerX ∧ s.gPlayerX < PLATFORM_X + PLATFORM_WIDTH) :
    (∀ i : TickInput, noKeys i = true →
      (update_state i s).gPlayerY = s.gPlayerY ∧
      (update_state i s).gIsOnGround = false ∧
      (update_state i s).gPlayerVelY = (0.8 : ℚ)) ∧
    (∀ i1 i2 : TickInput, noKeys i1 = true → i2.keyLeft = false → i2.keyRight = false →
      (update_state i2 (update_state i1 s)).gPlayerY = PLATFORM_Y - PLAYER_HEIGHT ∧
      (update_state i2 (update_state i1 s)).gPlayerVelY = 0 ∧
      (update_state i2 (update_state i1 s)).gIsOnGround = true ∧
      (update_state i2 (update_state i1 s)).gPlayerVelY ≠ JUMP_VELOCITY + PLATFORM_GRAVITY) ∧
    (∀ inputs : List TickInput, (∀ i ∈ inputs, noKeys i = true) →
      (ticks inputs s).gIsOnGround = decide (inputs.length % 2 = 0)) := by
  have hst : Standing s := ⟨hg, hl, hgr, hv, hy, hx⟩
  refine ⟨?_, ?_, ?_⟩
  · intro i hk
    obtain ⟨-, -, hgr1, hv1, hy1, -⟩ := update_state_standing i s hst hk
    refine ⟨?_, hgr1, ?_⟩
    · have := hy1.trans hy.symm
      omega
    · rw [hv1]
      norm_num [PLATFORM_GRAVITY]
  · intro i1 i2 hk hkl hkr
    obtain ⟨-, -, hgr2, hv2, hy2, -⟩ :=
      update_state_ungrounded i2 _ (update_state_standing i1 s hst hk) hkl hkr
    refine ⟨by omega, hv2, hgr2, ?_⟩
    rw [hv2]
    norm_num [JUMP_VELOCITY, PLATFORM_GRAVITY]
  · intro inputs hk
    exact (ticks_idle_alternates inputs s hk).1 hst

theorem standing_on_platform_alternates_witness :
    (({ initialState none with gGravityOn := true, gIsOnGround := true, gPlayerX := 288,
                               gPlayerY := 49 } : GameState).gPlayerY + PLAYER_HEIGHT
      = PLATFORM_Y) ∧
    ((update_state ⟨false, false, false, false, 0, 0⟩
      { initialState none with gGravityOn := true, gIsOnGround := true, gPlayerX := 288,
                               gPlayerY := 49 }).gIsOnGround = false ∧
     (update_state ⟨false, false, false, false, 0, 0⟩
      { initialState none with gGravityOn := true, gIsOnGround := true, gPlayerX := 288,
                               gPlayerY := 49 }).gPlayerVelY = (0.8 : ℚ)) ∧
    (update_state ⟨true, false, false, false, 0, 0⟩
      (update_state ⟨false, false, false, false, 0, 0⟩
        { initialState none with gGravityOn := true, gIsOnGround := true, gPlayerX := 288,
                                 gPlayerY := 49 })).gIsOnGround = true :=
  have h := standing_on_platform_alternates
    { initialState none with gGravityOn := true, gIsOnGround := true, gPlayerX := 288,
                             gPlayerY := 49 }
    rfl rfl rfl rfl (by decide) (by decide)
  ⟨by decide, (h.1 ⟨false, false, false, false, 0, 0⟩ rfl).2,
    (h.2.1 ⟨false, false, false, false, 0, 0⟩ ⟨true, false, false, false, 0, 0⟩
      rfl rfl rfl).2.2.1⟩

/-! ## Properties of the tick in double arithmetic -/

/-- The double model reproduces known binary64 results: the literals 0.8 and 0.707, the
sum 0.1 + 0.2, and ties to even at `1 + 2 ^ (-53)`. -/
theorem roundToDouble_examples :
    DOUBLE_0_8 = 3602879701896397 / 4503599627370496 ∧
    DOUBLE_0_707 = 6368089873101881 / 9007199254740992 ∧
    fadd (roundToDouble (1 / 10)) (roundToDouble (2 / 10)) =
      1351079888211149 / 4503599627370496 ∧
    roundToDouble (1 + 1 / 2 ^ 53) = 1 ∧
    roundToDouble (1 + 3 / 2 ^ 53) = 1 + 1 / 2 ^ 51 ∧
    fadd (-12) DOUBLE_0_8 = roundToDouble (-11.2) := by
  decide!

theorem ballClampXD_frame (s : GameState) : SameExceptBall (ballClampXD s) s := by
  simp only [ballClampXD]
  split_ifs <;> rfl

theorem ballClampYD_frame (s : GameState) : SameExceptBall (ballClampYD s) s := by
  simp only [ballClampYD]
  split_ifs <;> rfl

theorem ballIntegrateD_frame (s : GameState) : SameExceptBall (ballIntegrateD s) s := rfl

theorem ballWallsXD_frame (s : GameState) : SameExceptBall (ballWallsXD s) s := by
  simp only [ballWallsXD]
  split_ifs <;> rfl

theorem ballWallsYD_frame (s : GameState) : SameExceptBall (ballWallsYD s) s := by
  simp only [ballWallsYD]
  split_ifs <;> rfl

theorem ballPlayerCollisionD_frame (s : GameState) :
    SameExceptBall (ballPlayerCollisionD s) s := by
  simp only [ballPlayerCollisionD]
  split_ifs <;> rfl

theorem update_ball_physicsD_frame (s : GameState) :
    SameExceptBall (update_ball_physicsD s) s := by
  unfold update_ball_physicsD
  split_ifs
  · exact sameExceptBall_trans (sameExceptBall_trans (ballClampYD_frame _) (ballClampXD_frame _))
      (ballFollowCursor_frame _)
  · exact sameExceptBall_trans (sameExceptBall_trans (sameExceptBall_trans
      (ballPlayerCollisionD_frame _) (ballWallsYD_frame _)) (ballWallsXD_frame _))
      (ballIntegrateD_frame _)

/-- The player variables and mode flags after a tick in double arithmetic are those left
by the player part. -/
theorem update_stateD_player_fields (i : TickInput) (s : GameState) :
    (update_stateD i s).gPlayerX = (updatePlayerD i s).gPlayerX ∧
    (update_stateD i s).gPlayerY = (updatePlayerD i s).gPlayerY ∧
    (update_stateD i s).gGravityOn = (updatePlayerD i s).gGravityOn ∧
    (update_stateD i s).gPlatformLoss = (updatePlayerD i s).gPlatformLoss ∧
    (update_stateD i s).gPlayerVelY = (updatePlayerD i s).gPlayerVelY ∧
    (update_stateD i s).gIsOnGround = (updatePlayerD i s).gIsOnGround := by
  have h1 := targetScoring_frame i (update_ball_physicsD (updatePlayerD i s))
  have h2 := update_ball_physicsD_frame (updatePlayerD i s)
  unfold SameExceptTarget at h1
  unfold SameExceptBall at h2
  unfold update_stateD
  rw [h1]
  simp only
  rw [h2]
  simp only [and_self]

theorem playerPlatformerD_frame (i : TickInput) (s : GameState) :
    SameExceptPlayer (playerPlatformerD i s) s := by
  simp only [playerPlatformerD, platformerBeforeFloorD]
  split_ifs
  · exact sameExceptPlayer_trans (sameExceptPlayer_trans (sameExceptPlayer_trans
      (sameExceptPlayer_trans (platformerFloor_frame _) (platformerPlatform_frame _))
      (show SameExceptPlayer (platformerGravityD _) _ from rfl)) (platformerJump_frame i _))
      (platformerHorizontal_frame i _)
  · rfl

theorem updatePlayerD_of_gravity (i : TickInput) (s : GameState) (hg : s.gGravityOn = true) :
    updatePlayerD i s = playerScreenClamp (playerPlatformerD i s) := by
  simp [updatePlayerD, hg]

theorem playerPlatformerD_gGravityOn (i : TickInput) (s : GameState) :
    (playerPlatformerD i s).gGravityOn = s.gGravityOn := by
  have h := playerPlatformerD_frame i s
  unfold SameExceptPlayer at h
  rw [h]

theorem update_stateD_flags_of_loss (i : TickInput) (s : GameState)
    (hg : s.gGravityOn = true) (hl : s.gPlatformLoss = true) :
    (update_stateD i s).gPlatformLoss = true ∧ (update_stateD i s).gGravityOn = true := by
  obtain ⟨-, -, eg, el, -, -⟩ := update_stateD_player_fields i s
  obtain ⟨cl, cgv, -, -⟩ := playerScreenClamp_flags (playerPlatformerD i s)
  have hp : playerPlatformerD i s = s := by
    simp [playerPlatformerD, hl]
  rw [eg, el, updatePlayerD_of_gravity i s hg, cl, cgv, hp]
  exact ⟨hl, hg⟩

theorem ticksD_cons (i : TickInput) (inputs : List TickInput) (s : GameState) :
    ticksD (i :: inputs) s = ticksD inputs (update_stateD i s) := rfl

theorem ticksD_loss_latched (inputs : List TickInput) :
    ∀ s : GameState, s.gGravityOn = true → s.gPlatformLoss = true →
      (ticksD inputs s).gPlatformLoss = true ∧ (ticksD inputs s).gGravityOn = true := by
  induction inputs with
  | nil => intro s hg hl; exact ⟨hl, hg⟩
  | cons i rest ih =>
    intro s hg hl
    obtain ⟨h1, h2⟩ := update_stateD_flags_of_loss i s hg hl
    rw [ticksD_cons]
    exact ih _ h2 h1

theorem platformerBeforeFloorD_gPlatformLoss (i : TickInput) (s : GameState) :
    (platformerBeforeFloorD i s).gPlatformLoss = s.gPlatformLoss := by
  have h1 : ∀ t : GameState, (platformerPlatform t).gPlatformLoss = t.gPlatformLoss := by
    intro t
    simp only [platformerPlatform]
    split_ifs <;> rfl
  have h2 : ∀ t : GameState, (platformerJump i t).gPlatformLoss = t.gPlatformLoss := by
    intro t
    simp only [platformerJump]
    split_ifs <;> rfl
  have h3 : (platformerHorizontal i s).gPlatformLoss = s.gPlatformLoss := by
    simp only [platformerHorizontal]
    split_ifs <;> rfl
  unfold platformerBeforeFloorD
  rw [h1]
  show (platformerJump i (platformerHorizontal i s)).gPlatformLoss = _
  rw [h2, h3]

/-! ## Free fall after a retry, in double arithmetic -/

theorem retryFall_succ (n : Nat) :
    retryFall (n + 1) =
      (fadd (retryFall n).1 DOUBLE_0_8,
       (retryFall n).2 + truncToInt (fadd (retryFall n).1 DOUBLE_0_8)) := rfl

/-- The fall in doubles, tick by tick up to the floor: the bottom edge `y + 64` never lies
strictly between 113 and 117, and stays above the screen bottom through tick 30. -/
theorem retryFall_table :
    ∀ n < 31,
      ((retryFall (n + 1)).2 ≤ 49 ∨ 53 ≤ (retryFall (n + 1)).2) ∧
      39 ≤ (retryFall (n + 1)).2 ∧ (retryFall n).2 + 64 < 480 := by
  decide!

/-- Values of the fall in doubles: the first six ticks, the tenth tick (velocity
7.999999999999999, one pixel behind exact arithmetic) and tick 31 (below the floor). -/
theorem retryFall_values :
    (retryFall 0).2 = 39 ∧ (retryFall 1).2 = 39 ∧ (retryFall 2).2 = 40 ∧
    (retryFall 3).2 = 42 ∧ (retryFall 4).2 = 45 ∧ (retryFall 5).2 = 49 ∧
    (retryFall 6).2 = 53 ∧ (retryFall 5).1 = 4 ∧
    retryFall 10 = (9007199254740991 / 1125899906842624, 78) ∧
    (retryFall 30).2 = 398 ∧ (retryFall 31).2 = 422 := by
  decide!

/-- State of the platformer branch before the floor check, for a player in free fall. -/
theorem platformerBeforeFloorD_falling (i : TickInput) (n : Nat) (s : GameState)
    (h : FallingD n s) (hn : n < 31) :
    (platformerBeforeFloorD i s).gPlayerVelY = (retryFall (n + 1)).1 ∧
    (platformerBeforeFloorD i s).gPlayerY = (retryFall (n + 1)).2 ∧
    (platformerBeforeFloorD i s).gIsOnGround = false := by
  obtain ⟨-, -, hgr, hv, hy⟩ := h
  obtain ⟨ey, ev, eg⟩ := platformerHorizontal_vertical i s
  obtain ⟨hband, hlow, -⟩ := retryFall_table n hn
  have hj : platformerJump i (platformerHorizontal i s) = platformerHorizontal i s := by
    simp [platformerJump, eg, hgr]
  have hvel : (platformerGravityD (platformerHorizontal i s)).gPlayerVelY =
      (retryFall (n + 1)).1 := by
    show fadd (platformerHorizontal i s).gPlayerVelY DOUBLE_0_8 = _
    rw [ev, hv, retryFall_succ]
  have hpos : (platformerGravityD (platformerHorizontal i s)).gPlayerY =
      (retryFall (n + 1)).2 := by
    show (platformerHorizontal i s).gPlayerY +
      truncToInt (fadd (platformerHorizontal i s).gPlayerVelY DOUBLE_0_8) = _
    rw [ey, ev, hy, hv, retryFall_succ]
  have hmiss : platformerPlatform (platformerGravityD (platformerHorizontal i s)) =
      { platformerGravityD (platformerHorizontal i s) with gIsOnGround := false } := by
    apply platformerPlatform_miss
    rcases hband with hb | hb
    · left
      apply check_collision_platform_above
      · rw [hpos]
        omega
      · rw [hpos]
        omega
    · right
      rw [hpos, platformBox_eq]
      simp only [PLAYER_HEIGHT, PLAYER_VELOCITY]
      omega
  unfold platformerBeforeFloorD
  rw [hj, hmiss]
  exact ⟨hvel, hpos, rfl⟩

/-- One tick of a player in free fall, in double arithmetic: through tick 30 the fall
continues, and tick 31 ends in the loss state. -/
theorem update_stateD_falling (i : TickInput) (n : Nat) (s : GameState)
    (h : FallingD n s) (hn : n < 31) :
    (n + 1 < 31 → FallingD (n + 1) (update_stateD i s)) ∧
    (n + 1 = 31 →
      (update_stateD i s).gPlatformLoss = true ∧ (update_stateD i s).gGravityOn = true) := by
  obtain ⟨bv, bp, bg⟩ := platformerBeforeFloorD_falling i n s h hn
  obtain ⟨hg, hl, -, -, -⟩ := h
  obtain ⟨-, ey, egv, el, ev, egr⟩ := update_stateD_player_fields i s
  obtain ⟨cl, cgv, cv, cg⟩ := playerScreenClamp_flags (playerPlatformerD i s)
  have bl := platformerBeforeFloorD_gPlatformLoss i s
  have hgp : (playerPlatformerD i s).gGravityOn = true := by
    rw [playerPlatformerD_gGravityOn, hg]
  have hp : playerPlatformerD i s = platformerFloor (platformerBeforeFloorD i s) := by
    simp [playerPlatformerD, hl]
  have hgo : (update_stateD i s).gGravityOn = true := by
    rw [egv, updatePlayerD_of_gravity i s hg, cgv, hgp]
  constructor
  · intro hlt
    obtain ⟨-, -, habove⟩ := retryFall_table (n + 1) hlt
    have hf : platformerFloor (platformerBeforeFloorD i s) = platformerBeforeFloorD i s := by
      apply platformerFloor_above
      rw [bp]
      simp only [PLAYER_HEIGHT, SCREEN_HEIGHT]
      omega
    refine ⟨hgo, ?_, ?_, ?_, ?_⟩
    · rw [el, updatePlayerD_of_gravity i s hg, cl, hp, hf, bl, hl]
    · rw [egr, updatePlayerD_of_gravity i s hg, cg, hp, hf, bg]
    · rw [ev, updatePlayerD_of_gravity i s hg, cv, hp, hf, bv]
    · rw [ey, updatePlayerD_of_gravity i s hg, playerScreenClamp_gPlayerY_of_gravity _ hgp,
        hp, hf, bp]
  · intro heq
    refine ⟨?_, hgo⟩
    have h31 : 480 ≤ (retryFall (n + 1)).2 + 64 := by
      rw [heq, retryFall_values.2.2.2.2.2.2.2.2.2.2]
      decide
    have hc : (platformerBeforeFloorD i s).gPlayerY + PLAYER_HEIGHT ≥ SCREEN_HEIGHT := by
      rw [bp]
      simp only [PLAYER_HEIGHT, SCREEN_HEIGHT]
      omega
    rw [el, updatePlayerD_of_gravity i s hg, cl, hp, platformerFloor, if_pos hc]

/-- The free fall over a run of ticks in double arithmetic, whatever the keys. -/
theorem ticksD_falling (inputs : List TickInput) :
    ∀ (n : Nat) (s : GameState), FallingD n s → n < 31 →
      (n + inputs.length < 31 → FallingD (n + inputs.length) (ticksD inputs s)) ∧
      (31 ≤ n + inputs.length →
        (ticksD inputs s).gPlatformLoss = true ∧ (ticksD inputs s).gGravityOn = true) := by
  induction inputs with
  | nil =>
    intro n s h hn
    exact ⟨fun _ => h, fun hge => absurd hge (by simpa using hn)⟩
  | cons i rest ih =>
    intro n s h hn
    obtain ⟨h1, h2⟩ := update_stateD_falling i n s h hn
    have hlen : n + (i :: rest).length = n + 1 + rest.length := by
      simp only [List.length_cons]
      omega
    rw [hlen, ticksD_cons]
    by_cases hlt : n + 1 < 31
    · exact ih (n + 1) _ (h1 hlt) hlt
    · obtain ⟨hl, hg⟩ := h2 (by omega)
      exact ⟨fun hcon => absurd hcon (by omega), fun _ => ticksD_loss_latched rest _ hg hl⟩

/-- C13: in double arithmetic, from the state left by the retry click (gravity on, no
loss, player.y = 39, velY = 0, onGround false; any player.x, in particular 288), whatever
keys are active in the following ticks, no tick ends with `onGround` true and
`platformLoss` false; during the first six ticks the bottom edge is 103, 104, 106, 109,
113, 117; and after 31 ticks or more `platformLoss` is true again. -/
theorem retry_fall_never_lands_in_doubles (s : GameState)
    (hg : s.gGravityOn = true) (hl : s.gPlatformLoss = false)
    (hy : s.gPlayerY = PLATFORM_Y - PLAYER_HEIGHT - 10)
    (hv : s.gPlayerVelY = 0) (hgr : s.gIsOnGround = false) :
    (∀ inputs : List TickInput,
      ¬ ((ticksD inputs s).gIsOnGround = true ∧ (ticksD inputs s).gPlatformLoss = false)) ∧
    (∀ inputs : List TickInput, inputs.length ≤ 6 →
      (ticksD inputs s).gPlatformLoss = false ∧
      (ticksD inputs s).gPlayerY + PLAYER_HEIGHT =
        ([103, 103, 104, 106, 109, 113, 117] : List Int).getD inputs.length 0) ∧
    (∀ inputs : List TickInput, 31 ≤ inputs.length →
      (ticksD inputs s).gPlatformLoss = true ∧ (ticksD inputs s).gGravityOn = true) ∧
    (∀ (e : SDL_Event) (r : Bool) (s0 : GameState),
      s0.gPlatformLoss = true → isRetryClick e = true →
      (handle_event e r s0).2.gPlatformLoss = false ∧
      (handle_event e r s0).2.gPlayerX =
        PLATFORM_X + Int.tdiv PLATFORM_WIDTH 2 - Int.tdiv PLAYER_WIDTH 2 ∧
      (handle_event e r s0).2.gPlayerY = PLATFORM_Y - PLAYER_HEIGHT - 10 ∧
      (handle_event e r s0).2.gPlayerVelY = 0 ∧
      (handle_event e r s0).2.gIsOnGround = false ∧
      (handle_event e r s0).2.gGravityOn = s0.gGravityOn) := by
  have hf : FallingD 0 s := by
    refine ⟨hg, hl, hgr, hv, ?_⟩
    rw [hy]
    decide
  have key : ∀ inputs : List TickInput,
      (inputs.length < 31 → FallingD inputs.length (ticksD inputs s)) ∧
      (31 ≤ inputs.length →
        (ticksD inputs s).gPlatformLoss = true ∧ (ticksD inputs s).gGravityOn = true) := by
    intro inputs
    have := ticksD_falling inputs 0 s hf (by decide)
    simpa using this
  obtain ⟨v0, v1, v2, v3, v4, v5, v6, -⟩ := retryFall_values
  refine ⟨?_, ?_, fun inputs hlen => (key inputs).2 hlen, ?_⟩
  · intro inputs hcon
    by_cases hlt : inputs.length < 31
    · obtain ⟨-, -, hgr', -, -⟩ := (key inputs).1 hlt
      rw [hgr'] at hcon
      exact absurd hcon.1 (by decide)
    · have := ((key inputs).2 (by omega)).1
      rw [this] at hcon
      exact absurd hcon.2 (by decide)
  · intro inputs hlen
    obtain ⟨-, hl', -, -, hy'⟩ := (key inputs).1 (by omega)
    refine ⟨hl', ?_⟩
    rw [hy']
    generalize inputs.length = k at hlen
    interval_cases k <;> simp only [v0, v1, v2, v3, v4, v5, v6, PLAYER_HEIGHT] <;> decide
  · intro e r s0 hl0 he
    exact handle_event_retry_click e r s0 hl0 he

theorem retry_fall_never_lands_in_doubles_witness :
    ({ initialState none with gGravityOn := true, gPlayerX := 288, gPlayerY := 39 } :
      GameState).gPlayerY = PLATFORM_Y - PLAYER_HEIGHT - 10 ∧
    (ticksD (List.replicate 5 ⟨true, false, false, false, 0, 0⟩)
      { initialState none with gGravityOn := true, gPlayerX := 288, gPlayerY := 39 }).gPlayerY
      + PLAYER_HEIGHT = 113 ∧
    (ticksD (List.replicate 31 ⟨true, false, false, false, 0, 0⟩)
      { initialState none with gGravityOn := true, gPlayerX := 288, gPlayerY := 39 }).gPlatformLoss
      = true :=
  have h := retry_fall_never_lands_in_doubles
    { initialState none with gGravityOn := true, gPlayerX := 288, gPlayerY := 39 }
    rfl rfl (by decide) rfl rfl
  ⟨by decide, (h.2.1 (List.replicate 5 ⟨true, false, false, false, 0, 0⟩) (by decide)).2,
    (h.2.2.1 (List.replicate 31 ⟨true, false, false, false, 0, 0⟩) (by decide)).1⟩

end GameCore
